import Mathlib

/-!
Verification development for the SFS-Lab rocket calculator.

This file embeds the numeric core of the repository in Lean 4:
* `computedStages` — the multi-stage delta-v/TWR accountant from
  `src/components/MultiStageTool.tsx` (the `computedStages` memo);
* `simulateLaunch`, `runOptimization` — the RK4 flight simulator and the 1D
  optimization sweep from `src/services/physics.ts`;
* `calculateMatrix` — the 2D payload/fuel sweep from the payload-fuel
  optimizer component;
* a small IEEE-754-style extended-number type `JsNum` together with
  `computedStagesJs`, the same multi-stage accountant with JavaScript
  division semantics (where `x / 0` is `±Infinity` / `NaN` rather than
  Lean's `x / 0 = 0` convention), used to analyse division-by-zero
  behaviour.

Numbers are modelled as real numbers: the source language's binary floating
point rounding is not modelled, and in the main (real-valued) embedding a
division by an exactly-zero divisor follows Lean's `x / 0 = 0` convention;
theorems that depend on divisor behaviour either carry positivity
hypotheses keeping every divisor nonzero, or use the `JsNum` embedding.
String-valued record fields (ids, names, colors) that the numeric code
never reads are omitted from the embedded structures.
-/

namespace SFS

/-- Standard gravity constant from `src` constants: `GRAVITY_EARTH = 9.80665`,
used for Isp-to-exhaust-velocity and tonnes-force-to-Newton conversion. -/
noncomputable def GRAVITY_EARTH : ℝ := 9.80665

/-- The `stageType` field of a stage: `'serial' | 'parallel'`.  The TS field is
optional; only equality with `'parallel'` is ever tested, so a missing value
behaves as `serial` and is modelled by `serial`. -/
inductive StageType where
  | serial
  | parallel
deriving DecidableEq

/-- `RocketStage` (numeric and flag fields; `id`, `name`, `engineId` are
strings never read by the calculation). -/
structure RocketStage where
  dryMass : ℝ
  fuelMass : ℝ
  engineCount : ℝ
  engineThrust : ℝ
  engineIsp : ℝ
  isEnabled : Bool
  stageType : StageType

/-- A stage as cloned at the start of `computedStages`:
`stages.map(s => ({ ...s, remainingFuel: s.fuelMass }))` — the static stage
fields plus the mutable `remainingFuel`. -/
structure SimStage where
  dryMass : ℝ
  fuelMass : ℝ
  engineCount : ℝ
  engineThrust : ℝ
  engineIsp : ℝ
  isEnabled : Bool
  stageType : StageType
  remainingFuel : ℝ

/-- The initial simulation clone: `remainingFuel` starts at `fuelMass`. -/
def initSimStages (stages : List RocketStage) : List SimStage :=
  stages.map fun s =>
    { dryMass := s.dryMass, fuelMass := s.fuelMass, engineCount := s.engineCount,
      engineThrust := s.engineThrust, engineIsp := s.engineIsp,
      isEnabled := s.isEnabled, stageType := s.stageType,
      remainingFuel := s.fuelMass }

/-- `ComputedStage`: the record pushed into `results` — the spread of the
(post-update) sim stage plus the phase metrics. -/
structure ComputedStage where
  dryMass : ℝ
  fuelMass : ℝ
  engineCount : ℝ
  engineThrust : ℝ
  engineIsp : ℝ
  isEnabled : Bool
  stageType : StageType
  remainingFuel : ℝ
  totalMassStart : ℝ
  totalMassEnd : ℝ
  massAbove : ℝ
  deltaV : ℝ
  burnTime : ℝ
  twrStart : ℝ
  twrEnd : ℝ
  cumulativeDeltaV : ℝ
  isBurningWithNext : Bool
  phaseThrust : ℝ
  phaseIsp : ℝ

/-- The `massAbove` accumulation over the stages above the current one:
payload plus, for every *enabled* stage above, `dryMass + remainingFuel`. -/
def massAboveSum : List SimStage → ℝ
  | [] => 0
  | s :: rest =>
      (if s.isEnabled then s.dryMass + s.remainingFuel else 0) + massAboveSum rest

/-- The serial branch of the loop body: burns the current stage to depletion.
Mirrors lines 232–247 of `MultiStageTool.tsx`; note the burn-time division
`remainingFuel / (engineThrust / engineIsp)` has no zero-thrust branch. -/
noncomputable def serialPhase (cs : SimStage) (massAbove cumulativeDeltaV : ℝ) :
    ComputedStage :=
  let totalMassStart := cs.dryMass + cs.remainingFuel + massAbove
  let totalMassEnd := cs.dryMass + 0 + massAbove
  let deltaV := cs.engineIsp * GRAVITY_EARTH * Real.log (totalMassStart / totalMassEnd)
  let twrStart := cs.engineThrust / totalMassStart
  let twrEnd := cs.engineThrust / totalMassEnd
  let mDot := cs.engineThrust / cs.engineIsp
  let burnTime := cs.remainingFuel / mDot
  { dryMass := cs.dryMass, fuelMass := cs.fuelMass, engineCount := cs.engineCount,
    engineThrust := cs.engineThrust, engineIsp := cs.engineIsp,
    isEnabled := cs.isEnabled, stageType := cs.stageType,
    remainingFuel := 0,
    totalMassStart := totalMassStart, totalMassEnd := totalMassEnd,
    massAbove := massAbove, deltaV := deltaV, burnTime := burnTime,
    twrStart := twrStart, twrEnd := twrEnd,
    cumulativeDeltaV := cumulativeDeltaV + deltaV,
    isBurningWithNext := false,
    phaseThrust := cs.engineThrust, phaseIsp := cs.engineIsp }

/-- The parallel (booster) branch of the loop body, lines 190–231 of
`MultiStageTool.tsx`.  Note that `nextSim` is `simStages[i + 1]` regardless
of its `isEnabled` flag. -/
noncomputable def parallelPhase (cs nextSim : SimStage) (massAbove cumulativeDeltaV : ℝ) :
    ComputedStage :=
  let thrustTotal := cs.engineThrust + nextSim.engineThrust
  let mDotCurrent := cs.engineThrust / cs.engineIsp
  let mDotNext := nextSim.engineThrust / nextSim.engineIsp
  let mDotTotal := mDotCurrent + mDotNext
  let ispEffective := thrustTotal / mDotTotal
  let timeToEmptyCurrent := cs.remainingFuel / mDotCurrent
  let timeToEmptyNext := nextSim.remainingFuel / mDotNext
  let phaseTime := min timeToEmptyCurrent timeToEmptyNext
  let fuelConsumedCurrent := mDotCurrent * phaseTime
  let fuelConsumedNext := mDotNext * phaseTime
  let totalMassStart := cs.dryMass + cs.remainingFuel + massAbove
  let totalFuelConsumed := fuelConsumedCurrent + fuelConsumedNext
  let totalMassEnd := totalMassStart - totalFuelConsumed
  let deltaV := ispEffective * GRAVITY_EARTH * Real.log (totalMassStart / totalMassEnd)
  { dryMass := cs.dryMass, fuelMass := cs.fuelMass, engineCount := cs.engineCount,
    engineThrust := cs.engineThrust, engineIsp := cs.engineIsp,
    isEnabled := cs.isEnabled, stageType := cs.stageType,
    remainingFuel := cs.remainingFuel - fuelConsumedCurrent,
    totalMassStart := totalMassStart, totalMassEnd := totalMassEnd,
    massAbove := massAbove, deltaV := deltaV, burnTime := phaseTime,
    twrStart := thrustTotal / totalMassStart, twrEnd := thrustTotal / totalMassEnd,
    cumulativeDeltaV := cumulativeDeltaV + deltaV,
    isBurningWithNext := true,
    phaseThrust := thrustTotal, phaseIsp := ispEffective }

/-- The mutation of `nextSim.remainingFuel` performed by the parallel branch:
`nextSim.remainingFuel -= mDotNext * phaseTime`. -/
noncomputable def parallelNextUpdate (cs nextSim : SimStage) : SimStage :=
  let mDotCurrent := cs.engineThrust / cs.engineIsp
  let mDotNext := nextSim.engineThrust / nextSim.engineIsp
  let phaseTime :=
    min (cs.remainingFuel / mDotCurrent) (nextSim.remainingFuel / mDotNext)
  { nextSim with remainingFuel := nextSim.remainingFuel - mDotNext * phaseTime }

/-- The multi-stage accountant `computedStages` of `MultiStageTool.tsx`
(lines 158–268), as a recursion over the not-yet-processed sim stages with
the running `cumulativeDeltaV` as accumulator.  A disabled stage is skipped;
a stage is a parallel phase iff its `stageType` is `parallel` *and* a stage
exists above it (`i + 1 < simStages.length`, disabled stages included —
hence the separate one-stage pattern, where the source's
`isParallel = ... && (i + 1 < length)` is false); `massAbove` is the payload
plus dry-plus-remaining-fuel of every enabled stage above; the planet prop
is never read by this computation. -/
noncomputable def computedStages (payloadMass : ℝ) :
    List SimStage → ℝ → List ComputedStage
  | [], _ => []
  | [cs], cumulativeDeltaV =>
    if cs.isEnabled = false then computedStages payloadMass [] cumulativeDeltaV
    else [serialPhase cs (payloadMass + massAboveSum []) cumulativeDeltaV]
  | cs :: nextSim :: rest2, cumulativeDeltaV =>
    if cs.isEnabled = false then
      computedStages payloadMass (nextSim :: rest2) cumulativeDeltaV
    else if cs.stageType = StageType.parallel then
      let c := parallelPhase cs nextSim
          (payloadMass + massAboveSum (nextSim :: rest2)) cumulativeDeltaV
      c :: computedStages payloadMass
            (parallelNextUpdate cs nextSim :: rest2) c.cumulativeDeltaV
    else
      let c := serialPhase cs
          (payloadMass + massAboveSum (nextSim :: rest2)) cumulativeDeltaV
      c :: computedStages payloadMass (nextSim :: rest2) c.cumulativeDeltaV
termination_by l _ => l.length
decreasing_by
  · simp
  · simp
  · simp
  · simp

/-! ### The single-launch simulator (`src/services/physics.ts`) -/

/-- `Planet` (numeric fields; `id`, `name`, `color` are unused strings). -/
structure Planet where
  gravitySurface : ℝ
  radius : ℝ
  atmosphereHeight : ℝ

/-- `Engine`: thrust (tonnes-force), Isp (s), mass (t). -/
structure Engine where
  thrust : ℝ
  isp : ℝ
  mass : ℝ

/-- The `gravityModel` setting: `'constant' | 'variable'` (the second name
carries a `Model` suffix because `variable` is a Lean keyword). -/
inductive GravityModel where
  | constantModel
  | variableModel
deriving DecidableEq

/-- `SimulationSettings` (the `optimizationTarget` field is UI-only and
never read by the embedded computations). -/
structure SimulationSettings where
  gravityModel : GravityModel
  enableDrag : Bool
  timeStep : ℝ
  maxTime : ℝ

/-- `RocketParams`. -/
structure RocketParams where
  engineCount : ℝ
  engine : Engine
  payloadMass : ℝ
  tankDryWetRatio : ℝ
  totalTankMass : ℝ
  minTotalTankMass : ℝ
  maxTotalTankMass : ℝ
  stepTotalTankMass : ℝ
  minPayloadMass : ℝ
  maxPayloadMass : ℝ
  stepPayloadMass : ℝ

/-- The simulation state vector `[time, radius, velocity, mass]`; field names
follow the destructuring `const [t, r, v, m] = state` in the source.  For a
derivative vector the fields hold `[dt/dt, dr/dt, dv/dt, dm/dt]`. -/
structure StateVector where
  t : ℝ
  r : ℝ
  v : ℝ
  m : ℝ

/-- `TelemetryPoint`. -/
structure TelemetryPoint where
  time : ℝ
  height : ℝ
  velocity : ℝ
  gravity : ℝ
  fuelPercent : ℝ
  fuelConsumed : ℝ
  mass : ℝ
  acceleration : ℝ
  thrust : ℝ
  drag : ℝ
  twr : ℝ

/-- `SimulationResult`.  The optional `telemetry` field is `Option`-valued:
`none` models the field being `undefined`/absent. -/
structure SimulationResult where
  tankMass : ℝ
  totalMassStart : ℝ
  fuelMass : ℝ
  dryMass : ℝ
  burnTime : ℝ
  maxHeight : ℝ
  maxVelocity : ℝ
  twrStart : ℝ
  deltaV : ℝ
  telemetry : Option (List TelemetryPoint)

/-- `Number(x.toFixed(2))`: rounding to two decimal places (the source's
decimal-string rounding of a binary float is approximated by exact rounding
of the real value). -/
noncomputable def toFixed2 (x : ℝ) : ℝ := (round (x * 100) : ℤ) / 100

/-- `getDerivatives`: the force model (physics.ts lines 11–74).  The
`totalFuelMass` parameter is passed by every caller but never read, exactly
as in the source. -/
noncomputable def getDerivatives (state : StateVector) (planet : Planet)
    (params : RocketParams) (settings : SimulationSettings)
    (totalFuelMass initialTotalMass burnTime : ℝ) : StateVector :=
  let t := state.t
  let r := state.r
  let v := state.v
  let m := state.m
  let g : ℝ :=
    match settings.gravityModel with
    | .constantModel => planet.gravitySurface
    | .variableModel => planet.gravitySurface * (planet.radius / r) ^ 2
  let thrustForceN := params.engineCount * params.engine.thrust * 1000 * GRAVITY_EARTH
  let ve := params.engine.isp * GRAVITY_EARTH
  let mDot := if t < burnTime then thrustForceN / ve else 0
  let accelThrust := if t < burnTime then thrustForceN / m else 0
  let accelDrag : ℝ :=
    if settings.enableDrag = true ∧ r < planet.radius + planet.atmosphereHeight then
      let h := r - planet.radius
      let rho0 : ℝ := 1.225
      let scaleHeight := planet.atmosphereHeight / 5
      let rho := rho0 * Real.exp (-h / scaleHeight)
      let dragFactor := 0.005 * initialTotalMass
      let dragForce := 0.5 * rho * v * |v| * dragFactor
      let accel := -(dragForce / m) * (if 0 < v then 1 else -1)
      accel
    else 0
  let dv_dt := accelThrust - g + accelDrag
  { t := 1, r := v, v := dv_dt, m := -mDot }

/-- One RK4 step of the integration loop (physics.ts lines 209–242),
including the clamp of mass to the dry mass. -/
noncomputable def rk4Step (planet : Planet) (params : RocketParams)
    (settings : SimulationSettings) (fuelMassKg totalMassKg dryMassKg burnTime dt : ℝ)
    (state : StateVector) : StateVector :=
  let k1 := getDerivatives state planet params settings fuelMassKg totalMassKg burnTime
  let stateK2 : StateVector :=
    { t := state.t + k1.t * dt * 0.5, r := state.r + k1.r * dt * 0.5,
      v := state.v + k1.v * dt * 0.5, m := state.m + k1.m * dt * 0.5 }
  let k2 := getDerivatives stateK2 planet params settings fuelMassKg totalMassKg burnTime
  let stateK3 : StateVector :=
    { t := state.t + k2.t * dt * 0.5, r := state.r + k2.r * dt * 0.5,
      v := state.v + k2.v * dt * 0.5, m := state.m + k2.m * dt * 0.5 }
  let k3 := getDerivatives stateK3 planet params settings fuelMassKg totalMassKg burnTime
  let stateK4 : StateVector :=
    { t := state.t + k3.t * dt, r := state.r + k3.r * dt,
      v := state.v + k3.v * dt, m := state.m + k3.m * dt }
  let k4 := getDerivatives stateK4 planet params settings fuelMassKg totalMassKg burnTime
  { t := state.t + dt,
    r := state.r + (dt / 6) * (k1.r + 2 * k2.r + 2 * k3.r + k4.r),
    v := state.v + (dt / 6) * (k1.v + 2 * k2.v + 2 * k3.v + k4.v),
    m := max dryMassKg (state.m + (dt / 6) * (k1.m + 2 * k2.m + 2 * k3.m + k4.m)) }

/-- The telemetry snapshot recomputation (physics.ts lines 160–204). -/
noncomputable def mkTelemetryPoint (planet : Planet) (params : RocketParams)
    (settings : SimulationSettings) (fuelMassKg totalMassKg dryMassKg burnTime thrustN : ℝ)
    (state : StateVector) : TelemetryPoint :=
  let g : ℝ :=
    match settings.gravityModel with
    | .constantModel => planet.gravitySurface
    | .variableModel => planet.gravitySurface * (planet.radius / state.r) ^ 2
  let currentThrustN := if state.t < burnTime then thrustN else 0
  let currentDragN : ℝ :=
    if settings.enableDrag = true ∧
        state.r < planet.radius + planet.atmosphereHeight then
      let h := state.r - planet.radius
      let rho0 : ℝ := 1.225
      let scaleHeight := planet.atmosphereHeight / 5
      let rho := rho0 * Real.exp (-h / scaleHeight)
      let dragFactor := 0.005 * totalMassKg
      0.5 * rho * state.v * |state.v| * dragFactor
    else 0
  let netForce := currentThrustN - state.m * g - currentDragN
  let accel := netForce / state.m
  let currentMassKg := state.m
  let currentFuelKg := max 0 (currentMassKg - dryMassKg)
  let fuelPercent := if 0 < fuelMassKg then currentFuelKg / fuelMassKg * 100 else 0
  let fuelConsumedT := (fuelMassKg - currentFuelKg) / 1000
  { time := toFixed2 state.t, height := state.r - planet.radius,
    velocity := state.v, gravity := g,
    fuelPercent := max 0 fuelPercent, fuelConsumed := fuelConsumedT,
    mass := currentMassKg / 1000, acceleration := accel,
    thrust := currentThrustN / 1000, drag := currentDragN / 1000,
    twr := if 0 < state.m * g then currentThrustN / (state.m * g) else 0 }

/-- The mutable locals of the integration loop: the state vector, the running
maximum velocity, the logging timer and the accumulated telemetry. -/
structure LoopState where
  state : StateVector
  maxV : ℝ
  logTimer : ℝ
  telemetry : List TelemetryPoint

/-- The `while (state[0] < settings.maxTime)` integration loop of
`simulateLaunch` (physics.ts lines 144–243), as a fuelled recursion: the
source loop advances `t` by exactly `timeStep` every iteration, so with
`timeStep > 0` it executes at most `⌈maxTime / timeStep⌉` body iterations
and the fuel supplied by `simulateLaunch` is never exhausted before the
loop's own exit conditions fire (with `timeStep ≤ 0` the source loop would
never terminate). -/
noncomputable def simLoop (planet : Planet) (params : RocketParams)
    (settings : SimulationSettings)
    (fuelMassKg totalMassKg dryMassKg burnTime thrustN logInterval : ℝ)
    (recordTelemetry : Bool) : Nat → LoopState → LoopState
  | 0, ls => ls
  | Nat.succ n, ls =>
    if ¬ ls.state.t < settings.maxTime then ls
    else if 1 < ls.state.t ∧ ls.state.r ≤ planet.radius then ls
    else if ls.state.v < 0 then ls
    else
      let maxV := max ls.maxV ls.state.v
      let logged :=
        if recordTelemetry = true ∧ ls.logTimer ≤ ls.state.t then
          (ls.logTimer + logInterval,
           ls.telemetry ++ [mkTelemetryPoint planet params settings fuelMassKg
              totalMassKg dryMassKg burnTime thrustN ls.state])
        else (ls.logTimer, ls.telemetry)
      let state := rk4Step planet params settings fuelMassKg totalMassKg dryMassKg
          burnTime settings.timeStep ls.state
      simLoop planet params settings fuelMassKg totalMassKg dryMassKg burnTime
        thrustN logInterval recordTelemetry n
        { state := state, maxV := maxV, logTimer := logged.1, telemetry := logged.2 }

/-- `simulateLaunch` (physics.ts lines 79–257): mass breakdown, burn
parameters, ideal delta-v, the liftoff gate `twrStart < 1.0001`, and the RK4
integration. -/
noncomputable def simulateLaunch (tankTotalMassT : ℝ) (params : RocketParams)
    (planet : Planet) (settings : SimulationSettings) (logInterval : ℝ) :
    SimulationResult :=
  let fuelMassT := tankTotalMassT * (1 - params.tankDryWetRatio)
  let tankDryMassT := tankTotalMassT * params.tankDryWetRatio
  let enginesMassT := params.engineCount * params.engine.mass
  let payloadMassT := params.payloadMass
  let dryMassT := enginesMassT + payloadMassT + tankDryMassT
  let totalMassT := dryMassT + fuelMassT
  let totalMassKg := totalMassT * 1000
  let dryMassKg := dryMassT * 1000
  let fuelMassKg := fuelMassT * 1000
  let ve := params.engine.isp * GRAVITY_EARTH
  let thrustN := params.engineCount * params.engine.thrust * 1000 * GRAVITY_EARTH
  let mDot := thrustN / ve
  let burnTime := if 0 < mDot then fuelMassKg / mDot else 0
  let deltaV := ve * Real.log (totalMassT / dryMassT)
  let weightN := totalMassKg * planet.gravitySurface
  let twrStart := if 0 < weightN then thrustN / weightN else 0
  if twrStart < 1.0001 then
    { tankMass := tankTotalMassT, totalMassStart := totalMassT,
      fuelMass := fuelMassT, dryMass := dryMassT, burnTime := burnTime,
      maxHeight := 0, maxVelocity := 0, twrStart := twrStart, deltaV := deltaV,
      telemetry := none }
  else
    let recordTelemetry : Bool := decide (0 < logInterval)
    let steps := ⌈settings.maxTime / settings.timeStep⌉₊ + 1
    let ls := simLoop planet params settings fuelMassKg totalMassKg dryMassKg
        burnTime thrustN logInterval recordTelemetry steps
        { state := { t := 0, r := planet.radius, v := 0, m := totalMassKg },
          maxV := 0, logTimer := 0, telemetry := [] }
    { tankMass := tankTotalMassT, totalMassStart := totalMassT,
      fuelMass := fuelMassT, dryMass := dryMassT, burnTime := burnTime,
      maxHeight := max 0 (ls.state.r - planet.radius),
      maxVelocity := ls.maxV, twrStart := twrStart, deltaV := deltaV,
      telemetry := if recordTelemetry then some ls.telemetry else none }

/-! ### The sweeps -/

/-- The coarsened settings used by the 1D sweep:
`{ ...settings, timeStep: Math.max(settings.timeStep, 0.1) }`. -/
noncomputable def optSweepSettings (settings : SimulationSettings) :
    SimulationSettings :=
  { settings with timeStep := max settings.timeStep 0.1 }

/-- The `for (let m = min; m <= max; m += step)` loop of `runOptimization`,
as a fuelled recursion.  `runOptimization` supplies
`⌊(max − min) / step⌋.toNat + 1` fuel, which (for `step > 0`) is exactly the
number of iterations the source loop performs. -/
noncomputable def optLoop (params : RocketParams) (planet : Planet)
    (sweepSettings : SimulationSettings) : Nat → ℝ → List SimulationResult
  | 0, _ => []
  | Nat.succ n, m =>
    if m ≤ params.maxTotalTankMass then
      simulateLaunch m params planet sweepSettings 0
        :: optLoop params planet sweepSettings n (m + params.stepTotalTankMass)
    else []

/-- `runOptimization` (physics.ts lines 262–284): validates `step > 0` and
`min ≤ max`, coarsens the time step, and sweeps the tank mass with telemetry
disabled (`logInterval = 0`). -/
noncomputable def runOptimization (params : RocketParams) (planet : Planet)
    (settings : SimulationSettings) : List SimulationResult :=
  if params.stepTotalTankMass ≤ 0 then []
  else if params.maxTotalTankMass < params.minTotalTankMass then []
  else
    optLoop params planet (optSweepSettings settings)
      (⌊(params.maxTotalTankMass - params.minTotalTankMass) /
          params.stepTotalTankMass⌋.toNat + 1)
      params.minTotalTankMass

/-- The parameter record of the payload/fuel optimizer component:
`RocketParams & { minPayload, maxPayload, stepPayload }`. -/
structure MatrixParams extends RocketParams where
  minPayload : ℝ
  maxPayload : ℝ
  stepPayload : ℝ

/-- One cell of the 2D sweep's output. -/
structure DataPoint where
  payload : ℝ
  fuel : ℝ
  height : ℝ
  deltaV : ℝ

/-- The coarsened settings used by the 2D matrix sweep:
`{ ...settings, timeStep: Math.max(settings.timeStep, 0.2) }` — note the
`0.2` floor, unlike the 1D sweep's `0.1`. -/
noncomputable def matrixSweepSettings (settings : SimulationSettings) :
    SimulationSettings :=
  { settings with timeStep := max settings.timeStep 0.2 }

/-- The inner `for (let f = min; f <= max; f += stepF)` loop of
`calculateMatrix`: each cell runs `simulateLaunch` with `logInterval = 0`. -/
noncomputable def matrixInner (params : MatrixParams) (planet : Planet)
    (sweepSettings : SimulationSettings) (p stepF : ℝ) :
    Nat → ℝ → List DataPoint
  | 0, _ => []
  | Nat.succ n, f =>
    if f ≤ params.maxTotalTankMass then
      let res := simulateLaunch f { params.toRocketParams with payloadMass := p }
          planet sweepSettings 0
      { payload := toFixed2 p, fuel := toFixed2 f,
        height := res.maxHeight / 1000, deltaV := res.deltaV }
        :: matrixInner params planet sweepSettings p stepF n (f + stepF)
    else []

/-- The outer `for (let p = min; p <= max; p += stepP)` loop of
`calculateMatrix`. -/
noncomputable def matrixOuter (params : MatrixParams) (planet : Planet)
    (sweepSettings : SimulationSettings) (stepP stepF : ℝ) (fuelF : Nat) :
    Nat → ℝ → List DataPoint
  | 0, _ => []
  | Nat.succ n, p =>
    if p ≤ params.maxPayload then
      matrixInner params planet sweepSettings p stepF fuelF params.minTotalTankMass
        ++ matrixOuter params planet sweepSettings stepP stepF fuelF n (p + stepP)
    else []

/-- `calculateMatrix` from the payload/fuel optimizer component: clamps both
sweep steps to at least `0.1`, coarsens the time step via
`matrixSweepSettings` (floor `0.2`), and simulates every (payload, fuel)
grid cell with telemetry disabled. -/
noncomputable def calculateMatrix (params : MatrixParams) (planet : Planet)
    (settings : SimulationSettings) : List DataPoint :=
  let sweepSettings := matrixSweepSettings settings
  let stepP := max 0.1 params.stepPayload
  let stepF := max 0.1 params.stepTotalTankMass
  matrixOuter params planet sweepSettings stepP stepF
    (⌊(params.maxTotalTankMass - params.minTotalTankMass) / stepF⌋.toNat + 1)
    (⌊(params.maxPayload - params.minPayload) / stepP⌋.toNat + 1)
    params.minPayload

/-! ### JavaScript number semantics for the multi-stage accountant

`JsNum` is an extended real: a finite value, `Infinity`, `-Infinity` or
`NaN`, with the IEEE-754 behaviour of the operations the accountant uses
(negative zero is not distinguished from zero; binary rounding is not
modelled).  `computedStagesJs` is the same source function as
`computedStages`, translated over `JsNum`, so that the behaviour of the
unguarded divisions on zero divisors is captured faithfully. -/

/-- An extended number: finite, `Infinity`, `-Infinity` or `NaN`. -/
inductive JsNum where
  | fin (x : ℝ)
  | inf
  | ninf
  | nan

/-- IEEE negation. -/
noncomputable def jsNeg : JsNum → JsNum
  | .fin x => .fin (-x)
  | .inf => .ninf
  | .ninf => .inf
  | .nan => .nan

/-- IEEE addition. -/
noncomputable def jsAdd : JsNum → JsNum → JsNum
  | .nan, _ => .nan
  | _, .nan => .nan
  | .inf, .ninf => .nan
  | .ninf, .inf => .nan
  | .inf, _ => .inf
  | _, .inf => .inf
  | .ninf, _ => .ninf
  | _, .ninf => .ninf
  | .fin a, .fin b => .fin (a + b)

/-- IEEE subtraction (`a - b = a + (-b)`). -/
noncomputable def jsSub (a b : JsNum) : JsNum := jsAdd a (jsNeg b)

/-- IEEE multiplication. -/
noncomputable def jsMul : JsNum → JsNum → JsNum
  | .nan, _ => .nan
  | _, .nan => .nan
  | .inf, .inf => .inf
  | .inf, .ninf => .ninf
  | .ninf, .inf => .ninf
  | .ninf, .ninf => .inf
  | .inf, .fin b => if b = 0 then .nan else if 0 < b then .inf else .ninf
  | .fin a, .inf => if a = 0 then .nan else if 0 < a then .inf else .ninf
  | .ninf, .fin b => if b = 0 then .nan else if 0 < b then .ninf else .inf
  | .fin a, .ninf => if a = 0 then .nan else if 0 < a then .ninf else .inf
  | .fin a, .fin b => .fin (a * b)

/-- IEEE division (zero divisors produce `±Infinity`, except `0 / 0 = NaN`;
the sign of zero is not modelled, so a zero divisor counts as `+0`). -/
noncomputable def jsDiv : JsNum → JsNum → JsNum
  | .nan, _ => .nan
  | _, .nan => .nan
  | .inf, .inf => .nan
  | .inf, .ninf => .nan
  | .ninf, .inf => .nan
  | .ninf, .ninf => .nan
  | .inf, .fin b => if 0 ≤ b then .inf else .ninf
  | .ninf, .fin b => if 0 ≤ b then .ninf else .inf
  | .fin _, .inf => .fin 0
  | .fin _, .ninf => .fin 0
  | .fin a, .fin b =>
      if b = 0 then (if a = 0 then .nan else if 0 < a then .inf else .ninf)
      else .fin (a / b)

/-- `Math.min` (returns `NaN` if either argument is `NaN`). -/
noncomputable def jsMin : JsNum → JsNum → JsNum
  | .nan, _ => .nan
  | _, .nan => .nan
  | .ninf, _ => .ninf
  | _, .ninf => .ninf
  | .inf, b => b
  | a, .inf => a
  | .fin a, .fin b => .fin (min a b)

/-- `Math.log` (`log 0 = -Infinity`, `log x = NaN` for `x < 0`). -/
noncomputable def jsLog : JsNum → JsNum
  | .nan => .nan
  | .inf => .inf
  | .ninf => .nan
  | .fin x => if x = 0 then .ninf else if x < 0 then .nan else .fin (Real.log x)

/-- A sim stage under JavaScript semantics: the configured fields are finite
input numbers, but the threaded `remainingFuel` may become non-finite. -/
structure SimStageJs where
  dryMass : ℝ
  fuelMass : ℝ
  engineCount : ℝ
  engineThrust : ℝ
  engineIsp : ℝ
  isEnabled : Bool
  stageType : StageType
  remainingFuel : JsNum

/-- A computed stage under JavaScript semantics. -/
structure ComputedStageJs where
  dryMass : ℝ
  fuelMass : ℝ
  engineCount : ℝ
  engineThrust : ℝ
  engineIsp : ℝ
  isEnabled : Bool
  stageType : StageType
  remainingFuel : JsNum
  totalMassStart : JsNum
  totalMassEnd : JsNum
  massAbove : JsNum
  deltaV : JsNum
  burnTime : JsNum
  twrStart : JsNum
  twrEnd : JsNum
  cumulativeDeltaV : JsNum
  isBurningWithNext : Bool
  phaseThrust : JsNum
  phaseIsp : JsNum

/-- The `massAbove` accumulation under JavaScript semantics (left-to-right
addition order as in the source loop). -/
noncomputable def massAboveSumJs (payloadMass : ℝ) (rest : List SimStageJs) : JsNum :=
  rest.foldl
    (fun acc s =>
      if s.isEnabled then jsAdd acc (jsAdd (.fin s.dryMass) s.remainingFuel) else acc)
    (.fin payloadMass)

/-- The serial branch under JavaScript semantics: in particular
`burnTime = remainingFuel / (engineThrust / engineIsp)` with no zero-thrust
branch, so a zero-thrust stage gets `mDot = 0` and `burnTime = Infinity`. -/
noncomputable def serialPhaseJs (cs : SimStageJs) (massAbove cumulativeDeltaV : JsNum) :
    ComputedStageJs :=
  let totalMassStart := jsAdd (jsAdd (.fin cs.dryMass) cs.remainingFuel) massAbove
  let totalMassEnd := jsAdd (jsAdd (.fin cs.dryMass) (.fin 0)) massAbove
  let deltaV := jsMul (jsMul (.fin cs.engineIsp) (.fin GRAVITY_EARTH))
      (jsLog (jsDiv totalMassStart totalMassEnd))
  let twrStart := jsDiv (.fin cs.engineThrust) totalMassStart
  let twrEnd := jsDiv (.fin cs.engineThrust) totalMassEnd
  let mDot := jsDiv (.fin cs.engineThrust) (.fin cs.engineIsp)
  let burnTime := jsDiv cs.remainingFuel mDot
  { dryMass := cs.dryMass, fuelMass := cs.fuelMass, engineCount := cs.engineCount,
    engineThrust := cs.engineThrust, engineIsp := cs.engineIsp,
    isEnabled := cs.isEnabled, stageType := cs.stageType,
    remainingFuel := .fin 0,
    totalMassStart := totalMassStart, totalMassEnd := totalMassEnd,
    massAbove := massAbove, deltaV := deltaV, burnTime := burnTime,
    twrStart := twrStart, twrEnd := twrEnd,
    cumulativeDeltaV := jsAdd cumulativeDeltaV deltaV,
    isBurningWithNext := false,
    phaseThrust := .fin cs.engineThrust, phaseIsp := .fin cs.engineIsp }

/-- The parallel branch under JavaScript semantics. -/
noncomputable def parallelPhaseJs (cs nextSim : SimStageJs)
    (massAbove cumulativeDeltaV : JsNum) : ComputedStageJs :=
  let thrustTotal := .fin (cs.engineThrust + nextSim.engineThrust)
  let mDotCurrent := jsDiv (.fin cs.engineThrust) (.fin cs.engineIsp)
  let mDotNext := jsDiv (.fin nextSim.engineThrust) (.fin nextSim.engineIsp)
  let mDotTotal := jsAdd mDotCurrent mDotNext
  let ispEffective := jsDiv thrustTotal mDotTotal
  let phaseTime := jsMin (jsDiv cs.remainingFuel mDotCurrent)
      (jsDiv nextSim.remainingFuel mDotNext)
  let fuelConsumedCurrent := jsMul mDotCurrent phaseTime
  let fuelConsumedNext := jsMul mDotNext phaseTime
  let totalMassStart := jsAdd (jsAdd (.fin cs.dryMass) cs.remainingFuel) massAbove
  let totalMassEnd := jsSub totalMassStart (jsAdd fuelConsumedCurrent fuelConsumedNext)
  let deltaV := jsMul (jsMul ispEffective (.fin GRAVITY_EARTH))
      (jsLog (jsDiv totalMassStart totalMassEnd))
  { dryMass := cs.dryMass, fuelMass := cs.fuelMass, engineCount := cs.engineCount,
    engineThrust := cs.engineThrust, engineIsp := cs.engineIsp,
    isEnabled := cs.isEnabled, stageType := cs.stageType,
    remainingFuel := jsSub cs.remainingFuel fuelConsumedCurrent,
    totalMassStart := totalMassStart, totalMassEnd := totalMassEnd,
    massAbove := massAbove, deltaV := deltaV, burnTime := phaseTime,
    twrStart := jsDiv thrustTotal totalMassStart,
    twrEnd := jsDiv thrustTotal totalMassEnd,
    cumulativeDeltaV := jsAdd cumulativeDeltaV deltaV,
    isBurningWithNext := true,
    phaseThrust := thrustTotal, phaseIsp := ispEffective }

/-- The parallel branch's update of the upper stage's remaining fuel, under
JavaScript semantics. -/
noncomputable def parallelNextUpdateJs (cs nextSim : SimStageJs) : SimStageJs :=
  let mDotCurrent := jsDiv (.fin cs.engineThrust) (.fin cs.engineIsp)
  let mDotNext := jsDiv (.fin nextSim.engineThrust) (.fin nextSim.engineIsp)
  let phaseTime := jsMin (jsDiv cs.remainingFuel mDotCurrent)
      (jsDiv nextSim.remainingFuel mDotNext)
  { nextSim with remainingFuel := jsSub nextSim.remainingFuel (jsMul mDotNext phaseTime) }

/-- `computedStages` under JavaScript semantics (same source function as
`computedStages`, modelling `x / 0 = ±Infinity` rather than Lean's
`x / 0 = 0`). -/
noncomputable def computedStagesJs (payloadMass : ℝ) :
    List SimStageJs → JsNum → List ComputedStageJs
  | [], _ => []
  | [cs], cumulativeDeltaV =>
    if cs.isEnabled = false then computedStagesJs payloadMass [] cumulativeDeltaV
    else [serialPhaseJs cs (massAboveSumJs payloadMass []) cumulativeDeltaV]
  | cs :: nextSim :: rest2, cumulativeDeltaV =>
    if cs.isEnabled = false then
      computedStagesJs payloadMass (nextSim :: rest2) cumulativeDeltaV
    else if cs.stageType = StageType.parallel then
      let c := parallelPhaseJs cs nextSim
          (massAboveSumJs payloadMass (nextSim :: rest2)) cumulativeDeltaV
      c :: computedStagesJs payloadMass
            (parallelNextUpdateJs cs nextSim :: rest2) c.cumulativeDeltaV
    else
      let c := serialPhaseJs cs (massAboveSumJs payloadMass (nextSim :: rest2))
          cumulativeDeltaV
      c :: computedStagesJs payloadMass (nextSim :: rest2) c.cumulativeDeltaV
termination_by l _ => l.length
decreasing_by
  · simp
  · simp
  · simp
  · simp

/-- The documented input domain (§7 of the spec: non-negative masses,
positive Isp with nonzero thrust) for a sim stage, together with the stage
being enabled; `remainingFuel` is the threaded fuel state. -/
def StageOK (s : SimStage) : Prop :=
  s.isEnabled = true ∧ 0 < s.dryMass ∧ 0 ≤ s.remainingFuel ∧
    0 < s.engineThrust ∧ 0 < s.engineIsp

/-! ### Concrete configurations used in the analyses below -/

/-- A serial stage: dry 6 t, fuel 40 t, thrust 400 t-force, Isp 240 s. -/
def coreStage400 : SimStage :=
  { dryMass := 6, fuelMass := 40, engineCount := 1, engineThrust := 400,
    engineIsp := 240, isEnabled := true, stageType := StageType.serial,
    remainingFuel := 40 }

/-- A parallel (booster) stage: dry 6 t, fuel 40 t, thrust 400 t-force,
Isp 240 s (mass-flow 5/3 t/s, time-to-empty 24 s). -/
def boosterStage400 : SimStage :=
  { dryMass := 6, fuelMass := 40, engineCount := 1, engineThrust := 400,
    engineIsp := 240, isEnabled := true, stageType := StageType.parallel,
    remainingFuel := 40 }

/-- A disabled serial stage: dry 6 t, fuel 40 t, thrust 100 t-force,
Isp 200 s (mass-flow 1/2 t/s, time-to-empty 80 s), `isEnabled = false`. -/
def disabledCore100 : SimStage :=
  { dryMass := 6, fuelMass := 40, engineCount := 1, engineThrust := 100,
    engineIsp := 200, isEnabled := false, stageType := StageType.serial,
    remainingFuel := 40 }

/-- A parallel booster with 30 units of fuel and mass-flow 1 t/s
(thrust 240 t-force, Isp 240 s): time-to-empty 30 s. -/
def boosterFuel30 : SimStage :=
  { dryMass := 2, fuelMass := 30, engineCount := 1, engineThrust := 240,
    engineIsp := 240, isEnabled := true, stageType := StageType.parallel,
    remainingFuel := 30 }

/-- A core with 100 units of fuel and mass-flow 2 t/s (thrust 200 t-force,
Isp 100 s): time-to-empty 50 s. -/
def coreFuel100 : SimStage :=
  { dryMass := 3, fuelMass := 100, engineCount := 1, engineThrust := 200,
    engineIsp := 100, isEnabled := true, stageType := StageType.serial,
    remainingFuel := 100 }

/-- A zero-thrust serial stage under JavaScript semantics: dry 1 t, fuel
10 t, thrust 0, Isp 240 s. -/
def zeroThrustStageJs : SimStageJs :=
  { dryMass := 1, fuelMass := 10, engineCount := 1, engineThrust := 0,
    engineIsp := 240, isEnabled := true, stageType := StageType.serial,
    remainingFuel := JsNum.fin 10 }

/-- A small airless planet with standard surface gravity, used to evaluate
the integrator on short runs. -/
noncomputable def padPlanet : Planet :=
  { gravitySurface := 9.80665, radius := 100, atmosphereHeight := 0 }

/-- Constant-gravity, drag-off settings with a 1 s time step and a 1 s
simulation horizon (one integration step). -/
noncomputable def gateSettings : SimulationSettings :=
  { gravityModel := GravityModel.constantModel, enableDrag := false,
    timeStep := 1, maxTime := 1 }

/-- A rocket sitting exactly at the liftoff-gate boundary when its swept
tank mass is 9 t: thrust 10.001 t-force, Isp 240 s, engine mass 0.5 t,
payload 0.5 t, tank ratio 0.1 — fuel 8.1 t, dry mass 1.9 t, total mass
10 t, so TWR = 10.001 / 10 = 1.0001 exactly.  (The sweep-range fields are
unused by `simulateLaunch`.) -/
noncomputable def borderParams : RocketParams :=
  { engineCount := 1,
    engine := { thrust := 10.001, isp := 240, mass := 0.5 },
    payloadMass := 0.5, tankDryWetRatio := 0.1, totalTankMass := 0,
    minTotalTankMass := 0, maxTotalTankMass := 0, stepTotalTankMass := 0,
    minPayloadMass := 0, maxPayloadMass := 0, stepPayloadMass := 0 }

/-- A zero-thrust rocket (thrust 0, Isp 100 s, engine mass 1 t, payload 5 t,
tank ratio 0.1): its TWR is 0, so the liftoff gate always returns early. -/
noncomputable def zeroThrustParams : RocketParams :=
  { engineCount := 1,
    engine := { thrust := 0, isp := 100, mass := 1 },
    payloadMass := 5, tankDryWetRatio := 0.1, totalTankMass := 0,
    minTotalTankMass := 0, maxTotalTankMass := 0, stepTotalTankMass := 0,
    minPayloadMass := 0, maxPayloadMass := 0, stepPayloadMass := 0 }

/-- Settings with the user's time step set to `0.1` (and drag off, constant
gravity, 100 s horizon), used to probe the sweeps' time-step coarsening. -/
noncomputable def tenthStepSettings : SimulationSettings :=
  { gravityModel := GravityModel.constantModel, enableDrag := false,
    timeStep := 0.1, maxTime := 100 }

/-- Settings with the user's time step set to `0.2`. -/
noncomputable def fifthStepSettings : SimulationSettings :=
  { gravityModel := GravityModel.constantModel, enableDrag := false,
    timeStep := 0.2, maxTime := 100 }

/-- Sweep parameters covering tank masses 10 t to 20 t in 5 t steps
(engine thrust 40 t-force, Isp 200 s, mass 1 t, payload 2 t, ratio 0.1). -/
noncomputable def sweepParams : RocketParams :=
  { engineCount := 1,
    engine := { thrust := 40, isp := 200, mass := 1 },
    payloadMass := 2, tankDryWetRatio := 0.1, totalTankMass := 0,
    minTotalTankMass := 10, maxTotalTankMass := 20, stepTotalTankMass := 5,
    minPayloadMass := 0, maxPayloadMass := 0, stepPayloadMass := 0 }

/-- The spec's concrete serial two-stage scenario, lower stage:
dry 6 t, fuel 40 t, thrust 400 t-force, Isp 240 s. -/
def stage1R : RocketStage :=
  { dryMass := 6, fuelMass := 40, engineCount := 1, engineThrust := 400,
    engineIsp := 240, isEnabled := true, stageType := StageType.serial }

/-- The spec's concrete serial two-stage scenario, upper stage:
dry 2 t, fuel 15 t, thrust 100 t-force, Isp 290 s. -/
def stage2R : RocketStage :=
  { dryMass := 2, fuelMass := 15, engineCount := 1, engineThrust := 100,
    engineIsp := 290, isEnabled := true, stageType := StageType.serial }

/-- The bookkeeping invariant of the accountant's output list: starting from
accumulator `cum`, each record's `cumulativeDeltaV` is the previous
accumulator plus its own `deltaV`, threaded down the list. -/
def CumChain : ℝ → List ComputedStage → Prop
  | _, [] => True
  | cum, c :: rest =>
      c.cumulativeDeltaV = cum + c.deltaV ∧ CumChain c.cumulativeDeltaV rest

/-! ## Theorems -/

/-- C4: for every input, the `deltaV` field returned by `simulateLaunch`
equals `Isp × 9.80665 × ln(totalMass / dryMass)` with the masses derived
from the tank/ratio/engine/payload breakdown, and the field is identical
across any two settings and log intervals (in particular whether or not the
liftoff gate passes, and independent of time step, gravity model and drag). -/
theorem c4_deltaV_rocket_equation :
    ∀ (tank : ℝ) (params : RocketParams) (planet : Planet)
      (s s' : SimulationSettings) (li li' : ℝ),
      (simulateLaunch tank params planet s li).deltaV
        = params.engine.isp * GRAVITY_EARTH *
          Real.log (((params.engineCount * params.engine.mass + params.payloadMass
              + tank * params.tankDryWetRatio) + tank * (1 - params.tankDryWetRatio))
            / (params.engineCount * params.engine.mass + params.payloadMass
              + tank * params.tankDryWetRatio))
      ∧ (simulateLaunch tank params planet s li).deltaV
        = (simulateLaunch tank params planet s' li').deltaV := by
  intro tank params planet s s' li li'
  constructor
  · simp only [simulateLaunch]
    split_ifs <;> rfl
  · simp only [simulateLaunch]
    split_ifs <;> rfl

/-- C2 (amended): the TWR fields reported by `computedStages` are the phase
thrust (tonnes-force) divided by the phase mass (tonnes) — that is, thrust
force over weight at the fixed standard gravity `9.80665` — for every stage
list, payload and accumulator; the planet's surface gravity is not used
(the function does not even take the planet as an argument). -/
theorem c2_twr_thrust_over_mass :
    ∀ (payloadMass cum : ℝ) (l : List SimStage),
      (computedStages payloadMass l cum).Forall fun c =>
        c.twrStart = c.phaseThrust / c.totalMassStart ∧
        c.twrEnd = c.phaseThrust / c.totalMassEnd := by
  intro payloadMass cum l
  have H : ∀ (n : ℕ) (l : List SimStage) (cum : ℝ), l.length ≤ n →
      (computedStages payloadMass l cum).Forall fun c =>
        c.twrStart = c.phaseThrust / c.totalMassStart ∧
        c.twrEnd = c.phaseThrust / c.totalMassEnd := by
    intro n
    induction n with
    | zero =>
      intro l cum hl
      have : l = [] := List.eq_nil_of_length_eq_zero (Nat.le_zero.mp hl)
      subst this
      rw [computedStages]
      exact trivial
    | succ n ih =>
      intro l cum hl
      match l with
      | [] =>
        rw [computedStages]
        exact trivial
      | [cs] =>
        rw [computedStages]
        by_cases hen : cs.isEnabled = false
        · rw [if_pos hen]
          rw [computedStages]
          exact trivial
        · rw [if_neg hen]
          exact ⟨rfl, rfl⟩
      | cs :: nextSim :: rest2 =>
        rw [computedStages]
        by_cases hen : cs.isEnabled = false
        · rw [if_pos hen]
          exact ih (nextSim :: rest2) cum (by simpa using Nat.le_of_succ_le_succ hl)
        · rw [if_neg hen]
          by_cases hpar : cs.stageType = StageType.parallel
          · rw [if_pos hpar]
            simp only [List.forall_cons]
            exact ⟨⟨rfl, rfl⟩,
              ih (parallelNextUpdate cs nextSim :: rest2) _
                (by simpa using Nat.le_of_succ_le_succ hl)⟩
          · rw [if_neg hpar]
            simp only [List.forall_cons]
            exact ⟨⟨rfl, rfl⟩,
              ih (nextSim :: rest2) _ (by simpa using Nat.le_of_succ_le_succ hl)⟩
  exact H l.length l cum le_rfl

/-- C2 (counterexample): the claim that reported TWR equals thrust force
divided by `mass × planet surface gravity` fails: for the single serial
stage `coreStage400` (dry 6 t, fuel 40 t, thrust 400 t-force, Isp 240 s)
with 10 t payload, the reported start TWR is `400 / 56`, which differs from
`(400 × 1000 × 9.80665) / (56 × 1000 × 3.71)` on a planet with Mars's
surface gravity `3.71 ≠ 9.80665` — `computedStages` never reads the planet,
so the reported TWR cannot change with the planet's gravity. -/
theorem c2_counterexample_planet_gravity_ignored :
    ((computedStages 10 [coreStage400] 0).map fun c => c.twrStart) = [400 / 56]
    ∧ (400 : ℝ) / 56 ≠ (400 * 1000 * GRAVITY_EARTH) / (56 * 1000 * 3.71) := by
  constructor
  · rw [computedStages]
    norm_num [coreStage400, serialPhase, massAboveSum]
  · norm_num [GRAVITY_EARTH]

/-- C1: in `computedStages`, for every enabled stage flagged `parallel` with
a stage above it, the emitted phase's burn time is
`min(fuelA / mDotA, fuelB / mDotB)` (each stage's remaining fuel over its
own mass-flow rate `thrust / Isp`), the emitted record carries the lower
stage's fuel decremented by `mDotA × phaseTime`, and the recursion continues
with the upper stage's fuel decremented by `mDotB × phaseTime` — carried
forward into the subsequent phase, not zeroed.  The positivity hypotheses
keep both mass-flow divisors nonzero (the spec's documented input domain),
so the real-valued division agrees with the source's floating division. -/
theorem c1_parallel_phase_fuel_race :
    ∀ (payloadMass cum : ℝ) (cs nextSim : SimStage) (rest2 : List SimStage),
      cs.isEnabled = true → cs.stageType = StageType.parallel →
      0 < cs.engineThrust → 0 < cs.engineIsp →
      0 < nextSim.engineThrust → 0 < nextSim.engineIsp →
      ∃ c : ComputedStage,
        computedStages payloadMass (cs :: nextSim :: rest2) cum
          = c :: computedStages payloadMass
              ({ nextSim with
                  remainingFuel := nextSim.remainingFuel -
                    nextSim.engineThrust / nextSim.engineIsp *
                      min (cs.remainingFuel / (cs.engineThrust / cs.engineIsp))
                          (nextSim.remainingFuel /
                            (nextSim.engineThrust / nextSim.engineIsp)) } :: rest2)
              (cum + c.deltaV)
        ∧ c.burnTime
            = min (cs.remainingFuel / (cs.engineThrust / cs.engineIsp))
                (nextSim.remainingFuel / (nextSim.engineThrust / nextSim.engineIsp))
        ∧ c.remainingFuel
            = cs.remainingFuel -
                cs.engineThrust / cs.engineIsp *
                  min (cs.remainingFuel / (cs.engineThrust / cs.engineIsp))
                      (nextSim.remainingFuel /
                        (nextSim.engineThrust / nextSim.engineIsp)) := by
  intro payloadMass cum cs nextSim rest2 hen hpar _ _ _ _
  refine ⟨parallelPhase cs nextSim
    (payloadMass + massAboveSum (nextSim :: rest2)) cum, ?_, rfl, rfl⟩
  rw [computedStages, if_neg (by simp [hen]), if_pos hpar]
  rfl

/-- C1 (witness): the spec's own 30 s / 50 s fuel-race example —
`boosterFuel30` (30 fuel at mass-flow 1 t/s) paired with `coreFuel100`
(100 fuel at mass-flow 2 t/s): the phase lasts min(30, 50) = 30 s and the
core enters the next phase with 100 − 2×30 = 40 fuel. -/
theorem c1_parallel_phase_fuel_race_witness :
    boosterFuel30.isEnabled = true
    ∧ boosterFuel30.stageType = StageType.parallel
    ∧ (0 : ℝ) < boosterFuel30.engineThrust
    ∧ (0 : ℝ) < boosterFuel30.engineIsp
    ∧ (0 : ℝ) < coreFuel100.engineThrust
    ∧ (0 : ℝ) < coreFuel100.engineIsp
    ∧ (∃ c : ComputedStage,
        computedStages 10 [boosterFuel30, coreFuel100] 0
          = c :: computedStages 10
              [{ coreFuel100 with
                  remainingFuel := coreFuel100.remainingFuel -
                    coreFuel100.engineThrust / coreFuel100.engineIsp *
                      min (boosterFuel30.remainingFuel /
                            (boosterFuel30.engineThrust / boosterFuel30.engineIsp))
                          (coreFuel100.remainingFuel /
                            (coreFuel100.engineThrust / coreFuel100.engineIsp)) }]
              (0 + c.deltaV)
        ∧ c.burnTime
            = min (boosterFuel30.remainingFuel /
                    (boosterFuel30.engineThrust / boosterFuel30.engineIsp))
                (coreFuel100.remainingFuel /
                  (coreFuel100.engineThrust / coreFuel100.engineIsp))
        ∧ c.remainingFuel
            = boosterFuel30.remainingFuel -
                boosterFuel30.engineThrust / boosterFuel30.engineIsp *
                  min (boosterFuel30.remainingFuel /
                        (boosterFuel30.engineThrust / boosterFuel30.engineIsp))
                      (coreFuel100.remainingFuel /
                        (coreFuel100.engineThrust / coreFuel100.engineIsp)))
    ∧ min ((30 : ℝ) / (240 / 240)) ((100 : ℝ) / (200 / 100)) = 30
    ∧ (100 : ℝ) - 200 / 100 * min ((30 : ℝ) / (240 / 240)) ((100 : ℝ) / (200 / 100))
        = 40 := by
  refine ⟨rfl, rfl, by norm_num [boosterFuel30], by norm_num [boosterFuel30],
    by norm_num [coreFuel100], by norm_num [coreFuel100], ?_, by norm_num, by norm_num⟩
  exact c1_parallel_phase_fuel_race 10 0 boosterFuel30 coreFuel100 [] rfl rfl
    (by norm_num [boosterFuel30]) (by norm_num [boosterFuel30])
    (by norm_num [coreFuel100]) (by norm_num [coreFuel100])

/-- C9: evaluation at the failing input.  With `boosterStage400` (enabled,
parallel, thrust 400 t-force, mass-flow 5/3 t/s, time-to-empty 24 s)
directly below `disabledCore100` (disabled, thrust 100 t-force, mass-flow
1/2 t/s, 40 t fuel) and 10 t payload, the parallel branch uses
`simStages[i + 1]` without checking `isEnabled`: the single reported phase
has `phaseThrust = 500` (the disabled stage's 100 t-force included) and
`totalMassEnd = 4` (the start mass 6 + 40 + 10 = 56 minus 40 t of booster
fuel *and* 12 t of the disabled stage's fuel), even though the disabled
stage's mass is excluded from `massAbove`.  Under the claim the disabled
stage would contribute no thrust and no fuel consumption to the phase. -/
theorem c9_disabled_stage_feeds_parallel_phase :
    ((computedStages 10 [boosterStage400, disabledCore100] 0).map
        fun c => c.phaseThrust) = [500]
    ∧ ((computedStages 10 [boosterStage400, disabledCore100] 0).map
        fun c => c.totalMassEnd) = [4]
    ∧ disabledCore100.isEnabled = false := by
  have h : computedStages 10 [boosterStage400, disabledCore100] 0
      = [parallelPhase boosterStage400 disabledCore100
          (10 + massAboveSum [disabledCore100]) 0] := by
    rw [computedStages, if_neg (by simp [boosterStage400]),
      if_pos (by simp [boosterStage400])]
    simp only []
    rw [computedStages, if_pos (by simp [parallelNextUpdate, disabledCore100]),
      computedStages]
  rw [h]
  refine ⟨?_, ?_, rfl⟩
  · norm_num [parallelPhase, boosterStage400, disabledCore100, massAboveSum]
  · norm_num [parallelPhase, boosterStage400, disabledCore100, massAboveSum]

/-- C5 (counterexample): the multi-stage accountant has *no* zero-thrust
branch.  Under JavaScript division semantics (`computedStagesJs`), the
zero-thrust serial stage `zeroThrustStageJs` (thrust 0, Isp 240 s, 10 t
fuel) yields `mDot = 0 / 240 = 0` and
`burnTime = 10 / 0 = Infinity` — not `0` — so the claim that every
component branches to a zero mass-flow rate and zero burn time, with no
returned field ever `Infinity`, is false. -/
theorem c5_counterexample_multistage_infinite_burn_time :
    ((computedStagesJs 0 [zeroThrustStageJs] (JsNum.fin 0)).map
        fun c => c.burnTime) = [JsNum.inf]
    ∧ JsNum.inf ≠ JsNum.fin 0 := by
  constructor
  · rw [computedStagesJs, if_neg (by simp [zeroThrustStageJs])]
    simp only [List.map_cons, List.map_nil, List.cons.injEq, and_true]
    show (serialPhaseJs zeroThrustStageJs (massAboveSumJs 0 []) (JsNum.fin 0)).burnTime
        = JsNum.inf
    have h0 : jsDiv (JsNum.fin (zeroThrustStageJs.engineThrust))
        (JsNum.fin (zeroThrustStageJs.engineIsp)) = JsNum.fin 0 := by
      rw [jsDiv]
      norm_num [zeroThrustStageJs]
    show jsDiv zeroThrustStageJs.remainingFuel
        (jsDiv (JsNum.fin zeroThrustStageJs.engineThrust)
          (JsNum.fin zeroThrustStageJs.engineIsp)) = JsNum.inf
    rw [h0]
    show jsDiv (JsNum.fin 10) (JsNum.fin 0) = JsNum.inf
    rw [jsDiv]
    norm_num
  · exact fun h => JsNum.noConfusion h

/-- C5 (amended): in `simulateLaunch` (physics.ts) the explicit
`mDot > 0` branch does make the returned burn time 0 whenever the engine
thrust is 0; the multi-stage accountant, by contrast, performs its burn-time
divisions unguarded (see the counterexample). -/
theorem c5_simulateLaunch_zero_thrust_zero_burn_time :
    ∀ (tank : ℝ) (params : RocketParams) (planet : Planet)
      (settings : SimulationSettings) (li : ℝ),
      params.engine.thrust = 0 →
      (simulateLaunch tank params planet settings li).burnTime = 0 := by
  intro tank params planet settings li h
  simp only [simulateLaunch, h, mul_zero, zero_mul, zero_div,
    lt_self_iff_false, if_false]
  split_ifs <;> rfl

/-- C5 (witness): the zero-thrust configuration `zeroThrustParams` indeed
reports a zero burn time from `simulateLaunch`. -/
theorem c5_simulateLaunch_zero_thrust_zero_burn_time_witness :
    zeroThrustParams.engine.thrust = 0
    ∧ (simulateLaunch 10 zeroThrustParams padPlanet gateSettings 0).burnTime = 0 := by
  refine ⟨rfl, ?_⟩
  exact c5_simulateLaunch_zero_thrust_zero_burn_time 10 zeroThrustParams padPlanet
    gateSettings 0 rfl

/-- Helper: a `simulateLaunch` call with `logInterval = 0` returns no
telemetry (telemetry recording is gated on `logInterval > 0`). -/
theorem simulateLaunch_no_log_telemetry_none :
    ∀ (tank : ℝ) (params : RocketParams) (planet : Planet)
      (settings : SimulationSettings),
      (simulateLaunch tank params planet settings 0).telemetry = none := by
  intro tank params planet settings
  simp only [simulateLaunch]
  split_ifs <;> simp_all

/-- Helper: every result produced by the 1D sweep loop has no telemetry. -/
theorem optLoop_telemetry_none :
    ∀ (n : Nat) (params : RocketParams) (planet : Planet)
      (s : SimulationSettings) (m : ℝ),
      (optLoop params planet s n m).Forall fun r => r.telemetry = none := by
  intro n
  induction n with
  | zero => intro params planet s m; rw [optLoop]; exact trivial
  | succ n ih =>
    intro params planet s m
    rw [optLoop]
    split_ifs
    · simp only [List.forall_cons]
      exact ⟨simulateLaunch_no_log_telemetry_none m params planet s, ih params planet s _⟩
    · exact trivial

/-- C8 (amended): the 1D sweep coarsens the time step to
`max(userTimeStep, 0.1)`, so its sub-simulations run at exactly the user's
step whenever it is at least `0.1`; the 2D payload/fuel matrix instead
coarsens to `max(userTimeStep, 0.2)` (exactly the user's step only from
`0.2` up).  Both sweeps disable telemetry for every sub-simulation. -/
theorem c8_sweep_settings :
    (∀ settings : SimulationSettings,
        (optSweepSettings settings).timeStep = max settings.timeStep 0.1
        ∧ (matrixSweepSettings settings).timeStep = max settings.timeStep 0.2)
    ∧ (∀ settings : SimulationSettings, (0.1 : ℝ) ≤ settings.timeStep →
        (optSweepSettings settings).timeStep = settings.timeStep)
    ∧ (∀ settings : SimulationSettings, (0.2 : ℝ) ≤ settings.timeStep →
        (matrixSweepSettings settings).timeStep = settings.timeStep)
    ∧ (∀ (tank : ℝ) (params : RocketParams) (planet : Planet)
        (settings : SimulationSettings),
        (simulateLaunch tank params planet settings 0).telemetry = none)
    ∧ (∀ (params : RocketParams) (planet : Planet) (settings : SimulationSettings),
        (runOptimization params planet settings).Forall fun r =>
          r.telemetry = none) := by
  refine ⟨fun settings => ⟨rfl, rfl⟩, fun settings h => max_eq_left h,
    fun settings h => max_eq_left h, simulateLaunch_no_log_telemetry_none, ?_⟩
  intro params planet settings
  rw [runOptimization]
  split_ifs
  · exact trivial
  · exact trivial
  · exact optLoop_telemetry_none _ params planet _ _

/-- C8 (counterexample): with the user's time step set to `0.1`
(`tenthStepSettings`), the 2D matrix sweep's sub-simulations run at time
step `0.2`, not at `max(0.1, 0.1) = 0.1` as the claim states. -/
theorem c8_counterexample_matrix_time_step :
    (matrixSweepSettings tenthStepSettings).timeStep = 0.2
    ∧ max tenthStepSettings.timeStep (0.1 : ℝ) = 0.1
    ∧ (0.2 : ℝ) ≠ 0.1 := by
  refine ⟨?_, ?_, by norm_num⟩
  · show max tenthStepSettings.timeStep 0.2 = 0.2
    rw [show tenthStepSettings.timeStep = 0.1 from rfl]
    norm_num
  · rw [show tenthStepSettings.timeStep = 0.1 from rfl]
    norm_num

/-- Helper: the integration loop's state vector and running maximum velocity
do not depend on the log interval, the telemetry flag, the log timer or the
accumulated telemetry — logging never writes back into the trajectory. -/
theorem simLoop_trajectory_independent_of_logging :
    ∀ (n : Nat) (planet : Planet) (params : RocketParams)
      (settings : SimulationSettings) (fKg tKg dKg bT thN li li' : ℝ)
      (rec rec' : Bool) (st : StateVector) (mv lt lt' : ℝ)
      (tel tel' : List TelemetryPoint),
      (simLoop planet params settings fKg tKg dKg bT thN li rec n
          { state := st, maxV := mv, logTimer := lt, telemetry := tel }).state
        = (simLoop planet params settings fKg tKg dKg bT thN li' rec' n
            { state := st, maxV := mv, logTimer := lt', telemetry := tel' }).state
      ∧ (simLoop planet params settings fKg tKg dKg bT thN li rec n
          { state := st, maxV := mv, logTimer := lt, telemetry := tel }).maxV
        = (simLoop planet params settings fKg tKg dKg bT thN li' rec' n
            { state := st, maxV := mv, logTimer := lt', telemetry := tel' }).maxV := by
  intro n
  induction n with
  | zero =>
    intro planet params settings fKg tKg dKg bT thN li li' rec rec' st mv lt lt' tel tel'
    exact ⟨rfl, rfl⟩
  | succ n ih =>
    intro planet params settings fKg tKg dKg bT thN li li' rec rec' st mv lt lt' tel tel'
    rw [simLoop, simLoop]
    split_ifs <;>
      first
        | exact ⟨rfl, rfl⟩
        | exact ih planet params settings fKg tKg dKg bT thN li li' rec rec' _ _ _ _ _ _

/-- C10 (amended): two `simulateLaunch` calls that differ only in
`logInterval` agree on every numeric result field; the telemetry field is
present (`isSome`) iff `logInterval > 0` *and* the liftoff gate passes
(`¬ twrStart < 1.0001`) — the gate's early return carries no telemetry even
when logging was requested. -/
theorem c10_log_interval_does_not_perturb :
    ∀ (tank : ℝ) (params : RocketParams) (planet : Planet)
      (settings : SimulationSettings) (li li' : ℝ),
      (simulateLaunch tank params planet settings li).tankMass
        = (simulateLaunch tank params planet settings li').tankMass
      ∧ (simulateLaunch tank params planet settings li).totalMassStart
        = (simulateLaunch tank params planet settings li').totalMassStart
      ∧ (simulateLaunch tank params planet settings li).fuelMass
        = (simulateLaunch tank params planet settings li').fuelMass
      ∧ (simulateLaunch tank params planet settings li).dryMass
        = (simulateLaunch tank params planet settings li').dryMass
      ∧ (simulateLaunch tank params planet settings li).burnTime
        = (simulateLaunch tank params planet settings li').burnTime
      ∧ (simulateLaunch tank params planet settings li).maxHeight
        = (simulateLaunch tank params planet settings li').maxHeight
      ∧ (simulateLaunch tank params planet settings li).maxVelocity
        = (simulateLaunch tank params planet settings li').maxVelocity
      ∧ (simulateLaunch tank params planet settings li).twrStart
        = (simulateLaunch tank params planet settings li').twrStart
      ∧ (simulateLaunch tank params planet settings li).deltaV
        = (simulateLaunch tank params planet settings li').deltaV
      ∧ ((simulateLaunch tank params planet settings li).telemetry.isSome
          ↔ (0 < li ∧
              ¬ (simulateLaunch tank params planet settings li).twrStart < 1.0001)) := by
  intro tank params planet settings li li'
  have key : ∀ (t : List TelemetryPoint) (c : Bool),
      (if c = true then some t else none).isSome = c := by
    intro t c
    cases c <;> simp
  refine ⟨?_, ?_, ?_, ?_, ?_, ?_, ?_, ?_, ?_, ?_⟩
  · simp only [simulateLaunch]; split_ifs <;> rfl
  · simp only [simulateLaunch]; split_ifs <;> rfl
  · simp only [simulateLaunch]; split_ifs <;> rfl
  · simp only [simulateLaunch]; split_ifs <;> rfl
  · simp only [simulateLaunch]; split_ifs <;> rfl
  · simp only [simulateLaunch]
    split_ifs <;>
      first
        | rfl
        | exact congrArg (fun st => max 0 (st.r - planet.radius))
            (simLoop_trajectory_independent_of_logging _ planet params settings
              _ _ _ _ _ li li' _ _ _ _ _ _ _ _).1
  · simp only [simulateLaunch]
    split_ifs <;>
      first
        | rfl
        | exact (simLoop_trajectory_independent_of_logging _ planet params settings
            _ _ _ _ _ li li' _ _ _ _ _ _ _ _).2
  · simp only [simulateLaunch]; split_ifs <;> rfl
  · simp only [simulateLaunch]; split_ifs <;> rfl
  · simp only [simulateLaunch, apply_ite SimulationResult.telemetry,
      apply_ite SimulationResult.twrStart, apply_ite Option.isSome,
      Option.isSome_none, Option.isSome_some, key, ite_self]
    split_ifs <;> simp_all

/-- C10 (counterexample): the claim's parenthetical "telemetry present iff
`logInterval > 0`" fails at the liftoff gate: the zero-thrust rocket
`zeroThrustParams` requested logging (`logInterval = 1 > 0`) yet the result
carries no telemetry, because the gate's early-return object has no
telemetry field. -/
theorem c10_counterexample_gated_telemetry_absent :
    (simulateLaunch 10 zeroThrustParams padPlanet gateSettings 1).telemetry = none
    ∧ (0 : ℝ) < 1 := by
  refine ⟨?_, by norm_num⟩
  norm_num [simulateLaunch, zeroThrustParams, padPlanet, gateSettings, GRAVITY_EARTH]

/-- Helper: the `tankMass` field always echoes the swept input mass. -/
theorem simulateLaunch_tankMass :
    ∀ (tank : ℝ) (params : RocketParams) (planet : Planet)
      (settings : SimulationSettings) (li : ℝ),
      (simulateLaunch tank params planet settings li).tankMass = tank := by
  intro tank params planet settings li
  simp only [simulateLaunch]
  split_ifs <;> rfl

/-- Helper: the sweep loop stops as soon as the swept mass passes the
maximum. -/
theorem optLoop_nil :
    ∀ (n : Nat) (params : RocketParams) (planet : Planet)
      (s : SimulationSettings) (m : ℝ),
      params.maxTotalTankMass < m → optLoop params planet s n m = [] := by
  intro n params planet s m h
  cases n with
  | zero => rw [optLoop]
  | succ n => rw [optLoop, if_neg (not_le.mpr h)]

/-- Helper: with a positive step and enough fuel, the sweep loop from `m`
produces exactly the points `m, m + step, …` — one for each
`k ≤ ⌊(max − m) / step⌋`. -/
theorem optLoop_spec (params : RocketParams) (planet : Planet)
    (s : SimulationSettings) (hst : 0 < params.stepTotalTankMass) :
    ∀ (n : Nat) (m : ℝ), m ≤ params.maxTotalTankMass →
      (⌊(params.maxTotalTankMass - m) / params.stepTotalTankMass⌋.toNat) < n →
      optLoop params planet s n m
        = (List.range
            (⌊(params.maxTotalTankMass - m) / params.stepTotalTankMass⌋.toNat + 1)).map
            fun k : ℕ =>
              simulateLaunch (m + (k : ℝ) * params.stepTotalTankMass) params planet s 0 := by
  intro n
  induction n with
  | zero => intro m _ hlt; exact absurd hlt (Nat.not_lt_zero _)
  | succ n ih =>
    intro m hm hlt
    rw [optLoop, if_pos hm]
    have hF0 : 0 ≤ ⌊(params.maxTotalTankMass - m) / params.stepTotalTankMass⌋ :=
      Int.floor_nonneg.mpr (div_nonneg (by linarith) hst.le)
    by_cases hnext : m + params.stepTotalTankMass ≤ params.maxTotalTankMass
    · have hstep : (params.maxTotalTankMass - (m + params.stepTotalTankMass)) /
          params.stepTotalTankMass
          = (params.maxTotalTankMass - m) / params.stepTotalTankMass - 1 := by
        field_simp
        ring
      have hF' : ⌊(params.maxTotalTankMass - (m + params.stepTotalTankMass)) /
          params.stepTotalTankMass⌋
          = ⌊(params.maxTotalTankMass - m) / params.stepTotalTankMass⌋ - 1 := by
        rw [hstep]
        exact_mod_cast Int.floor_sub_int
          ((params.maxTotalTankMass - m) / params.stepTotalTankMass) 1
      have hF1 : 1 ≤ ⌊(params.maxTotalTankMass - m) / params.stepTotalTankMass⌋ := by
        apply Int.le_floor.mpr
        push_cast
        rw [le_div_iff₀ hst]
        linarith
      have IH := ih (m + params.stepTotalTankMass) hnext (by rw [hF']; omega)
      rw [IH, hF']
      conv_rhs => rw [List.range_succ_eq_map, List.map_cons, List.map_map]
      congr 1
      · norm_num
      · rw [show (⌊(params.maxTotalTankMass - m) / params.stepTotalTankMass⌋ - 1).toNat + 1
            = ⌊(params.maxTotalTankMass - m) / params.stepTotalTankMass⌋.toNat by omega]
        refine List.map_congr_left ?_
        intro k _
        show simulateLaunch
            (m + params.stepTotalTankMass + (k : ℝ) * params.stepTotalTankMass)
            params planet s 0
          = simulateLaunch (m + ((Nat.succ k : ℕ) : ℝ) * params.stepTotalTankMass)
            params planet s 0
        congr 1
        push_cast
        ring
    · have hF0' : ⌊(params.maxTotalTankMass - m) / params.stepTotalTankMass⌋ = 0 := by
        rw [Int.floor_eq_zero_iff]
        constructor
        · exact div_nonneg (by linarith) hst.le
        · rw [div_lt_one hst]
          linarith
      rw [optLoop_nil n params planet s _ (by linarith), hF0']
      rw [show (1 : ℕ) = 0 + 1 from rfl, List.range_succ_eq_map]
      simp

/-- C6: `runOptimization` returns `[]` when the step is ≤ 0 or the minimum
tank mass exceeds the maximum; otherwise it returns exactly
`⌊(max − min) / step⌋ + 1` results whose swept tank-mass values are
`min + k·step`, all lying in `[min, max]` (starting at `min`, increasing by
`step`). -/
theorem c6_sweep_domain :
    ∀ (params : RocketParams) (planet : Planet) (settings : SimulationSettings),
      (params.stepTotalTankMass ≤ 0 →
        runOptimization params planet settings = [])
      ∧ (params.maxTotalTankMass < params.minTotalTankMass →
        runOptimization params planet settings = [])
      ∧ (0 < params.stepTotalTankMass →
          params.minTotalTankMass ≤ params.maxTotalTankMass →
          (runOptimization params planet settings).length
            = ⌊(params.maxTotalTankMass - params.minTotalTankMass) /
                params.stepTotalTankMass⌋.toNat + 1
          ∧ ∀ (k : ℕ) (h : k < (runOptimization params planet settings).length),
              ((runOptimization params planet settings).get ⟨k, h⟩).tankMass
                  = params.minTotalTankMass + (k : ℝ) * params.stepTotalTankMass
              ∧ params.minTotalTankMass
                  ≤ ((runOptimization params planet settings).get ⟨k, h⟩).tankMass
              ∧ ((runOptimization params planet settings).get ⟨k, h⟩).tankMass
                  ≤ params.maxTotalTankMass) := by
  intro params planet settings
  refine ⟨?_, ?_, ?_⟩
  · intro h
    rw [runOptimization, if_pos h]
  · intro h
    rw [runOptimization]
    split_ifs with h1
    · rfl
    · rfl
  · intro hst hmm
    have hrun : runOptimization params planet settings
        = (List.range
            (⌊(params.maxTotalTankMass - params.minTotalTankMass) /
                params.stepTotalTankMass⌋.toNat + 1)).map
            fun k : ℕ =>
              simulateLaunch (params.minTotalTankMass + (k : ℝ) *
                params.stepTotalTankMass) params planet (optSweepSettings settings) 0 := by
      rw [runOptimization, if_neg (not_le.mpr hst), if_neg (not_lt.mpr hmm)]
      exact optLoop_spec params planet (optSweepSettings settings) hst _
        params.minTotalTankMass hmm (Nat.lt_succ_self _)
    have hlen : (runOptimization params planet settings).length
        = ⌊(params.maxTotalTankMass - params.minTotalTankMass) /
            params.stepTotalTankMass⌋.toNat + 1 := by
      rw [hrun, List.length_map, List.length_range]
    refine ⟨hlen, ?_⟩
    intro k h
    have hk : k ≤ ⌊(params.maxTotalTankMass - params.minTotalTankMass) /
        params.stepTotalTankMass⌋.toNat := by
      rw [hlen] at h
      omega
    have hget : ((runOptimization params planet settings).get ⟨k, h⟩).tankMass
        = params.minTotalTankMass + (k : ℝ) * params.stepTotalTankMass := by
      rw [List.get_of_eq hrun ⟨k, h⟩]
      simp only [List.get_eq_getElem, Fin.coe_cast, List.getElem_map,
        List.getElem_range]
      exact simulateLaunch_tankMass _ params planet (optSweepSettings settings) 0
    refine ⟨hget, ?_, ?_⟩
    · rw [hget]
      have : 0 ≤ (k : ℝ) * params.stepTotalTankMass :=
        mul_nonneg (Nat.cast_nonneg k) hst.le
      linarith
    · rw [hget]
      have hF0 : 0 ≤ ⌊(params.maxTotalTankMass - params.minTotalTankMass) /
          params.stepTotalTankMass⌋ :=
        Int.floor_nonneg.mpr (div_nonneg (by linarith) hst.le)
      have hkZ : (k : ℤ) ≤ ⌊(params.maxTotalTankMass - params.minTotalTankMass) /
          params.stepTotalTankMass⌋ := by
        omega
      have hkR : (k : ℝ) ≤ (params.maxTotalTankMass - params.minTotalTankMass) /
          params.stepTotalTankMass := by
        calc (k : ℝ) ≤ (⌊(params.maxTotalTankMass - params.minTotalTankMass) /
            params.stepTotalTankMass⌋ : ℤ) := by exact_mod_cast hkZ
          _ ≤ _ := Int.floor_le _
      rw [le_div_iff₀ hst] at hkR
      linarith

/-- C6 (witness): sweeping tank mass 10..20 in steps of 5 yields
`⌊10 / 5⌋ + 1 = 3` results with tank masses `10 + 5k` inside `[10, 20]`. -/
theorem c6_sweep_domain_witness :
    0 < sweepParams.stepTotalTankMass
    ∧ sweepParams.minTotalTankMass ≤ sweepParams.maxTotalTankMass
    ∧ ((runOptimization sweepParams padPlanet gateSettings).length
        = ⌊(sweepParams.maxTotalTankMass - sweepParams.minTotalTankMass) /
            sweepParams.stepTotalTankMass⌋.toNat + 1
      ∧ ∀ (k : ℕ) (h : k < (runOptimization sweepParams padPlanet gateSettings).length),
          ((runOptimization sweepParams padPlanet gateSettings).get ⟨k, h⟩).tankMass
              = sweepParams.minTotalTankMass + (k : ℝ) * sweepParams.stepTotalTankMass
          ∧ sweepParams.minTotalTankMass
              ≤ ((runOptimization sweepParams padPlanet gateSettings).get ⟨k, h⟩).tankMass
          ∧ ((runOptimization sweepParams padPlanet gateSettings).get ⟨k, h⟩).tankMass
              ≤ sweepParams.maxTotalTankMass) := by
  have h1 : 0 < sweepParams.stepTotalTankMass := by norm_num [sweepParams]
  have h2 : sweepParams.minTotalTankMass ≤ sweepParams.maxTotalTankMass := by
    norm_num [sweepParams]
  exact ⟨h1, h2, (c6_sweep_domain sweepParams padPlanet gateSettings).2.2 h1 h2⟩

/-- C8 (witness): at a user time step of `0.2` both sweeps run at exactly
the user's step. -/
theorem c8_sweep_settings_witness :
    (0.1 : ℝ) ≤ fifthStepSettings.timeStep
    ∧ (0.2 : ℝ) ≤ fifthStepSettings.timeStep
    ∧ (optSweepSettings fifthStepSettings).timeStep = fifthStepSettings.timeStep
    ∧ (matrixSweepSettings fifthStepSettings).timeStep = fifthStepSettings.timeStep := by
  have h1 : (0.1 : ℝ) ≤ fifthStepSettings.timeStep := by
    show (0.1 : ℝ) ≤ 0.2
    norm_num
  have h2 : (0.2 : ℝ) ≤ fifthStepSettings.timeStep := by
    show (0.2 : ℝ) ≤ 0.2
    norm_num
  exact ⟨h1, h2, c8_sweep_settings.2.1 fifthStepSettings h1,
    c8_sweep_settings.2.2.1 fifthStepSettings h2⟩

/-- Helper: the mass above is non-negative on the documented domain. -/
theorem massAboveSum_nonneg :
    ∀ (l : List SimStage), (∀ s ∈ l, StageOK s) → 0 ≤ massAboveSum l := by
  intro l
  induction l with
  | nil =>
    intro _
    rw [massAboveSum]
  | cons s rest ih =>
    intro hs
    rw [massAboveSum]
    have h1 := hs s (List.mem_cons_self s rest)
    have h2 := ih fun t ht => hs t (List.mem_cons_of_mem s ht)
    rcases h1 with ⟨_, hd, hf, _, _⟩
    split_ifs
    all_goals linarith

/-- Helper: on the documented domain a serial phase contributes a
non-negative delta-v. -/
theorem serialPhase_deltaV_nonneg (cs : SimStage) (massAbove cum : ℝ)
    (hok : StageOK cs) (hma : 0 ≤ massAbove) :
    0 ≤ (serialPhase cs massAbove cum).deltaV := by
  rcases hok with ⟨_, hd, hf, _, hisp⟩
  show 0 ≤ cs.engineIsp * GRAVITY_EARTH *
    Real.log ((cs.dryMass + cs.remainingFuel + massAbove) /
      (cs.dryMass + 0 + massAbove))
  have hend : 0 < cs.dryMass + 0 + massAbove := by linarith
  have hle : cs.dryMass + 0 + massAbove ≤ cs.dryMass + cs.remainingFuel + massAbove := by
    linarith
  have hlog : 0 ≤ Real.log ((cs.dryMass + cs.remainingFuel + massAbove) /
      (cs.dryMass + 0 + massAbove)) :=
    Real.log_nonneg ((one_le_div hend).mpr hle)
  have hg : (0 : ℝ) ≤ GRAVITY_EARTH := by norm_num [GRAVITY_EARTH]
  exact mul_nonneg (mul_nonneg hisp.le hg) hlog

/-- Helper: a stage's parallel-phase fuel consumption never exceeds its own
remaining fuel (its mass flow times the min-limited phase time is at most
its fuel). -/
theorem parallel_consumed_le_fuel (cs nextSim : SimStage)
    (hA : 0 < cs.engineThrust / cs.engineIsp)
    (hB : 0 < nextSim.engineThrust / nextSim.engineIsp)
    (hfA : 0 ≤ cs.remainingFuel) (hfB : 0 ≤ nextSim.remainingFuel) :
    cs.engineThrust / cs.engineIsp *
        min (cs.remainingFuel / (cs.engineThrust / cs.engineIsp))
            (nextSim.remainingFuel / (nextSim.engineThrust / nextSim.engineIsp))
      ≤ cs.remainingFuel
    ∧ nextSim.engineThrust / nextSim.engineIsp *
        min (cs.remainingFuel / (cs.engineThrust / cs.engineIsp))
            (nextSim.remainingFuel / (nextSim.engineThrust / nextSim.engineIsp))
      ≤ nextSim.remainingFuel
    ∧ 0 ≤ min (cs.remainingFuel / (cs.engineThrust / cs.engineIsp))
            (nextSim.remainingFuel / (nextSim.engineThrust / nextSim.engineIsp)) := by
  have htA : 0 ≤ cs.remainingFuel / (cs.engineThrust / cs.engineIsp) :=
    div_nonneg hfA hA.le
  have htB : 0 ≤ nextSim.remainingFuel / (nextSim.engineThrust / nextSim.engineIsp) :=
    div_nonneg hfB hB.le
  refine ⟨?_, ?_, le_min htA htB⟩
  · calc cs.engineThrust / cs.engineIsp *
        min (cs.remainingFuel / (cs.engineThrust / cs.engineIsp))
            (nextSim.remainingFuel / (nextSim.engineThrust / nextSim.engineIsp))
        ≤ cs.engineThrust / cs.engineIsp *
            (cs.remainingFuel / (cs.engineThrust / cs.engineIsp)) :=
          mul_le_mul_of_nonneg_left (min_le_left _ _) hA.le
      _ = cs.remainingFuel := by
          rw [mul_comm, div_mul_cancel₀ _ (ne_of_gt hA)]
  · calc nextSim.engineThrust / nextSim.engineIsp *
        min (cs.remainingFuel / (cs.engineThrust / cs.engineIsp))
            (nextSim.remainingFuel / (nextSim.engineThrust / nextSim.engineIsp))
        ≤ nextSim.engineThrust / nextSim.engineIsp *
            (nextSim.remainingFuel / (nextSim.engineThrust / nextSim.engineIsp)) :=
          mul_le_mul_of_nonneg_left (min_le_right _ _) hB.le
      _ = nextSim.remainingFuel := by
          rw [mul_comm, div_mul_cancel₀ _ (ne_of_gt hB)]

/-- Helper: on the documented domain (and with the stage above enabled, its
mass counted inside `massAbove`), a parallel phase contributes a
non-negative delta-v. -/
theorem parallelPhase_deltaV_nonneg (cs nextSim : SimStage) (massAbove M cum : ℝ)
    (hok : StageOK cs) (hok' : StageOK nextSim)
    (hma : massAbove = nextSim.dryMass + nextSim.remainingFuel + M) (hM : 0 ≤ M) :
    0 ≤ (parallelPhase cs nextSim massAbove cum).deltaV := by
  rcases hok with ⟨_, hdA, hfA, htA, hiA⟩
  rcases hok' with ⟨_, hdB, hfB, htB, hiB⟩
  have hmA : 0 < cs.engineThrust / cs.engineIsp := div_pos htA hiA
  have hmB : 0 < nextSim.engineThrust / nextSim.engineIsp := div_pos htB hiB
  obtain ⟨hcA, hcB, ht0⟩ := parallel_consumed_le_fuel cs nextSim hmA hmB hfA hfB
  show 0 ≤ (cs.engineThrust + nextSim.engineThrust) /
      (cs.engineThrust / cs.engineIsp + nextSim.engineThrust / nextSim.engineIsp) *
      GRAVITY_EARTH *
      Real.log ((cs.dryMass + cs.remainingFuel + massAbove) /
        ((cs.dryMass + cs.remainingFuel + massAbove) -
          (cs.engineThrust / cs.engineIsp *
              min (cs.remainingFuel / (cs.engineThrust / cs.engineIsp))
                (nextSim.remainingFuel / (nextSim.engineThrust / nextSim.engineIsp)) +
            nextSim.engineThrust / nextSim.engineIsp *
              min (cs.remainingFuel / (cs.engineThrust / cs.engineIsp))
                (nextSim.remainingFuel / (nextSim.engineThrust / nextSim.engineIsp)))))
  have hconsA : 0 ≤ cs.engineThrust / cs.engineIsp *
      min (cs.remainingFuel / (cs.engineThrust / cs.engineIsp))
        (nextSim.remainingFuel / (nextSim.engineThrust / nextSim.engineIsp)) :=
    mul_nonneg hmA.le ht0
  have hconsB : 0 ≤ nextSim.engineThrust / nextSim.engineIsp *
      min (cs.remainingFuel / (cs.engineThrust / cs.engineIsp))
        (nextSim.remainingFuel / (nextSim.engineThrust / nextSim.engineIsp)) :=
    mul_nonneg hmB.le ht0
  have hend : 0 < (cs.dryMass + cs.remainingFuel + massAbove) -
      (cs.engineThrust / cs.engineIsp *
          min (cs.remainingFuel / (cs.engineThrust / cs.engineIsp))
            (nextSim.remainingFuel / (nextSim.engineThrust / nextSim.engineIsp)) +
        nextSim.engineThrust / nextSim.engineIsp *
          min (cs.remainingFuel / (cs.engineThrust / cs.engineIsp))
            (nextSim.remainingFuel / (nextSim.engineThrust / nextSim.engineIsp))) := by
    rw [hma]
    linarith
  have hle : (cs.dryMass + cs.remainingFuel + massAbove) -
      (cs.engineThrust / cs.engineIsp *
          min (cs.remainingFuel / (cs.engineThrust / cs.engineIsp))
            (nextSim.remainingFuel / (nextSim.engineThrust / nextSim.engineIsp)) +
        nextSim.engineThrust / nextSim.engineIsp *
          min (cs.remainingFuel / (cs.engineThrust / cs.engineIsp))
            (nextSim.remainingFuel / (nextSim.engineThrust / nextSim.engineIsp)))
      ≤ cs.dryMass + cs.remainingFuel + massAbove := by
    linarith
  have hlog := Real.log_nonneg ((one_le_div hend).mpr hle)
  have hisp : 0 ≤ (cs.engineThrust + nextSim.engineThrust) /
      (cs.engineThrust / cs.engineIsp + nextSim.engineThrust / nextSim.engineIsp) :=
    (div_pos (by linarith) (by linarith)).le
  have hg : (0 : ℝ) ≤ GRAVITY_EARTH := by norm_num [GRAVITY_EARTH]
  exact mul_nonneg (mul_nonneg hisp hg) hlog

/-- Helper: the parallel branch's upper-stage update preserves the
documented domain (in particular its remaining fuel stays non-negative). -/
theorem parallelNextUpdate_ok (cs nextSim : SimStage)
    (hok : StageOK cs) (hok' : StageOK nextSim) :
    StageOK (parallelNextUpdate cs nextSim) := by
  rcases hok with ⟨_, _, hfA, htA, hiA⟩
  rcases hok' with ⟨hen, hdB, hfB, htB, hiB⟩
  have hmA : 0 < cs.engineThrust / cs.engineIsp := div_pos htA hiA
  have hmB : 0 < nextSim.engineThrust / nextSim.engineIsp := div_pos htB hiB
  obtain ⟨_, hcB, _⟩ := parallel_consumed_le_fuel cs nextSim hmA hmB hfA hfB
  exact ⟨hen, hdB, by
    show 0 ≤ nextSim.remainingFuel - nextSim.engineThrust / nextSim.engineIsp *
      min (cs.remainingFuel / (cs.engineThrust / cs.engineIsp))
        (nextSim.remainingFuel / (nextSim.engineThrust / nextSim.engineIsp))
    linarith, htB, hiB⟩

/-- Helper: the accountant's output always satisfies the cumulative
bookkeeping invariant. -/
theorem computedStages_cumChain :
    ∀ (n : ℕ) (l : List SimStage) (cum payload : ℝ), l.length ≤ n →
      CumChain cum (computedStages payload l cum) := by
  intro n
  induction n with
  | zero =>
    intro l cum payload hl
    have : l = [] := List.eq_nil_of_length_eq_zero (Nat.le_zero.mp hl)
    subst this
    rw [computedStages, CumChain]
    trivial
  | succ n ih =>
    intro l cum payload hl
    match l with
    | [] =>
      rw [computedStages, CumChain]
      trivial
    | [cs] =>
      rw [computedStages]
      by_cases hen : cs.isEnabled = false
      · rw [if_pos hen, computedStages, CumChain]
        trivial
      · rw [if_neg hen, CumChain]
        exact ⟨rfl, by rw [CumChain]; trivial⟩
    | cs :: nextSim :: rest2 =>
      rw [computedStages]
      by_cases hen : cs.isEnabled = false
      · rw [if_pos hen]
        exact ih _ cum payload (by simpa using Nat.le_of_succ_le_succ hl)
      · rw [if_neg hen]
        by_cases hpar : cs.stageType = StageType.parallel
        · rw [if_pos hpar]
          simp only []
          rw [CumChain]
          exact ⟨rfl, ih _ _ payload (by simpa using Nat.le_of_succ_le_succ hl)⟩
        · rw [if_neg hpar]
          simp only []
          rw [CumChain]
          exact ⟨rfl, ih _ _ payload (by simpa using Nat.le_of_succ_le_succ hl)⟩

/-- Helper (pure list fact): under the bookkeeping invariant, the last
record's cumulative delta-v is the starting accumulator plus the sum of the
individual delta-vs. -/
theorem cumChain_getLast :
    ∀ (l : List ComputedStage) (cum : ℝ), CumChain cum l →
      ∀ last, l.getLast? = some last →
        last.cumulativeDeltaV = cum + (l.map ComputedStage.deltaV).sum := by
  intro l
  induction l with
  | nil =>
    intro cum _ last hlast
    simp at hlast
  | cons c rest ih =>
    intro cum hchain last hlast
    rw [CumChain] at hchain
    match rest with
    | [] =>
      simp only [List.getLast?_singleton, Option.some.injEq] at hlast
      subst hlast
      simpa using hchain.1
    | x :: xs =>
      rw [List.getLast?_cons_cons] at hlast
      have := ih c.cumulativeDeltaV hchain.2 last hlast
      rw [this, hchain.1]
      simp only [List.map_cons, List.sum_cons]
      ring

/-- Helper (pure list fact): under the bookkeeping invariant, if every
record's delta-v is non-negative then the cumulative delta-vs form a
non-decreasing chain from the starting accumulator. -/
theorem cumChain_chain_mono :
    ∀ (l : List ComputedStage) (cum : ℝ), CumChain cum l →
      (∀ c ∈ l, 0 ≤ c.deltaV) →
      List.Chain' (· ≤ ·) (cum :: l.map ComputedStage.cumulativeDeltaV) := by
  intro l
  induction l with
  | nil =>
    intro cum _ _
    simp
  | cons c rest ih =>
    intro cum hchain hnn
    rw [CumChain] at hchain
    simp only [List.map_cons]
    rw [List.chain'_cons]
    constructor
    · have := hnn c (List.mem_cons_self c rest)
      rw [hchain.1]
      linarith
    · exact ih c.cumulativeDeltaV hchain.2
        fun d hd => hnn d (List.mem_cons_of_mem c hd)

/-- Helper: on the documented domain every phase's delta-v is
non-negative. -/
theorem computedStages_deltaV_nonneg :
    ∀ (n : ℕ) (l : List SimStage) (cum payload : ℝ), l.length ≤ n →
      0 ≤ payload → (∀ s ∈ l, StageOK s) →
      ∀ c ∈ computedStages payload l cum, 0 ≤ c.deltaV := by
  intro n
  induction n with
  | zero =>
    intro l cum payload hl _ _ c hc
    have : l = [] := List.eq_nil_of_length_eq_zero (Nat.le_zero.mp hl)
    subst this
    rw [computedStages] at hc
    simp at hc
  | succ n ih =>
    intro l cum payload hl hp hs c hc
    match l with
    | [] =>
      rw [computedStages] at hc
      simp at hc
    | [cs] =>
      rw [computedStages,
        if_neg (by simp [(hs cs (List.mem_cons_self cs [])).1])] at hc
      simp only [List.mem_singleton] at hc
      subst hc
      exact serialPhase_deltaV_nonneg cs _ cum (hs cs (List.mem_cons_self cs []))
        (by rw [massAboveSum]; linarith)
    | cs :: nextSim :: rest2 =>
      have hokA := hs cs (List.mem_cons_self cs _)
      have hokB := hs nextSim (List.mem_cons_of_mem cs (List.mem_cons_self nextSim _))
      have hsRest2 : ∀ s ∈ rest2, StageOK s := fun s hsm =>
        hs s (List.mem_cons_of_mem cs (List.mem_cons_of_mem nextSim hsm))
      rw [computedStages, if_neg (by simp [hokA.1])] at hc
      by_cases hpar : cs.stageType = StageType.parallel
      · rw [if_pos hpar] at hc
        simp only [] at hc
        rw [List.mem_cons] at hc
        rcases hc with hc | hc
        · subst hc
          refine parallelPhase_deltaV_nonneg cs nextSim _
            (payload + massAboveSum rest2) cum hokA hokB ?_ ?_
          · rw [massAboveSum, if_pos hokB.1]
            ring
          · have := massAboveSum_nonneg rest2 hsRest2
            linarith
        · refine ih _ _ payload (by simpa using Nat.le_of_succ_le_succ hl) hp ?_ c hc
          intro s hsm
          rw [List.mem_cons] at hsm
          rcases hsm with hsm | hsm
          · subst hsm
            exact parallelNextUpdate_ok cs nextSim hokA hokB
          · exact hsRest2 s hsm
      · rw [if_neg hpar] at hc
        simp only [] at hc
        rw [List.mem_cons] at hc
        rcases hc with hc | hc
        · subst hc
          refine serialPhase_deltaV_nonneg cs _ cum hokA ?_
          have h1 := massAboveSum_nonneg (nextSim :: rest2) fun s hsm => by
            rw [List.mem_cons] at hsm
            rcases hsm with hsm | hsm
            · subst hsm; exact hokB
            · exact hsRest2 s hsm
          linarith
        · refine ih _ _ payload (by simpa using Nat.le_of_succ_le_succ hl) hp ?_ c hc
          intro s hsm
          rw [List.mem_cons] at hsm
          rcases hsm with hsm | hsm
          · subst hsm; exact hokB
          · exact hsRest2 s hsm

/-- C7: for any stage list and payload on the documented domain (all stages
enabled with positive dry mass, thrust and Isp and non-negative fuel,
non-negative payload), the sum of the individual phase `deltaV`s equals the
`cumulativeDeltaV` of the final reported stage, and the reported
`cumulativeDeltaV`s are non-decreasing from the first processed stage to the
last. -/
theorem c7_cumulative_deltaV :
    ∀ (stages : List RocketStage) (payload : ℝ),
      0 ≤ payload →
      (∀ s ∈ stages, s.isEnabled = true ∧ 0 < s.dryMass ∧ 0 ≤ s.fuelMass ∧
        0 < s.engineThrust ∧ 0 < s.engineIsp) →
      (∀ last,
          (computedStages payload (initSimStages stages) 0).getLast? = some last →
          ((computedStages payload (initSimStages stages) 0).map
              ComputedStage.deltaV).sum
            = last.cumulativeDeltaV)
      ∧ List.Chain' (· ≤ ·)
          ((computedStages payload (initSimStages stages) 0).map
            ComputedStage.cumulativeDeltaV) := by
  intro stages payload hp hs
  have hok : ∀ s ∈ initSimStages stages, StageOK s := by
    intro s hsm
    rw [initSimStages, List.mem_map] at hsm
    obtain ⟨r, hr, rfl⟩ := hsm
    obtain ⟨h1, h2, h3, h4, h5⟩ := hs r hr
    exact ⟨h1, h2, h3, h4, h5⟩
  have hchain := computedStages_cumChain (initSimStages stages).length
    (initSimStages stages) 0 payload le_rfl
  constructor
  · intro last hlast
    have h := cumChain_getLast _ 0 hchain last hlast
    rw [h]
    ring
  · have hnn := computedStages_deltaV_nonneg (initSimStages stages).length
      (initSimStages stages) 0 payload le_rfl hp hok
    exact (cumChain_chain_mono _ 0 hchain hnn).tail

/-- C7 (witness): the spec's two-stage serial rocket (`stage1R`, `stage2R`)
with a 10 t payload satisfies the domain hypotheses, so its phase delta-vs
sum to the final cumulative value and the cumulative column is
monotone. -/
theorem c7_cumulative_deltaV_witness :
    (0 : ℝ) ≤ 10
    ∧ (∀ s ∈ [stage1R, stage2R], s.isEnabled = true ∧ 0 < s.dryMass ∧
        0 ≤ s.fuelMass ∧ 0 < s.engineThrust ∧ 0 < s.engineIsp)
    ∧ ((∀ last,
          (computedStages 10 (initSimStages [stage1R, stage2R]) 0).getLast?
            = some last →
          ((computedStages 10 (initSimStages [stage1R, stage2R]) 0).map
              ComputedStage.deltaV).sum
            = last.cumulativeDeltaV)
      ∧ List.Chain' (· ≤ ·)
          ((computedStages 10 (initSimStages [stage1R, stage2R]) 0).map
            ComputedStage.cumulativeDeltaV)) := by
  have hp : (0 : ℝ) ≤ 10 := by norm_num
  have hs : ∀ s ∈ [stage1R, stage2R], s.isEnabled = true ∧ 0 < s.dryMass ∧
      0 ≤ s.fuelMass ∧ 0 < s.engineThrust ∧ 0 < s.engineIsp := by
    intro s hsm
    simp only [List.mem_cons, List.not_mem_nil, or_false] at hsm
    rcases hsm with h | h <;> subst h <;>
      exact ⟨rfl, by norm_num [stage1R, stage2R], by norm_num [stage1R, stage2R],
        by norm_num [stage1R, stage2R], by norm_num [stage1R, stage2R]⟩
  exact ⟨hp, hs, c7_cumulative_deltaV [stage1R, stage2R] 10 hp hs⟩

set_option maxHeartbeats 2000000 in
/-- C3 (counterexample): the gate is strict (`twrStart < 1.0001`), not
`≤ 1.0001`.  `borderParams` with tank mass 9 t has `twrStart = 1.0001`
exactly, so the claim (start TWR ≤ 1.0001 implies zero height) asserts
`maxHeight = 0`; but the code does *not* gate this rocket — it integrates
one RK4 step (1 s at thrust-to-weight 1.0001) and reports a strictly
positive `maxHeight`. -/
theorem c3_counterexample_boundary_twr :
    (simulateLaunch 9 borderParams padPlanet gateSettings 0).twrStart = 1.0001
    ∧ (simulateLaunch 9 borderParams padPlanet gateSettings 0).twrStart ≤ 1.0001
    ∧ (simulateLaunch 9 borderParams padPlanet gateSettings 0).maxHeight ≠ 0 := by
  refine ⟨?_, ?_, ?_⟩
  · norm_num [simulateLaunch, borderParams, padPlanet, gateSettings, GRAVITY_EARTH]
  · norm_num [simulateLaunch, borderParams, padPlanet, gateSettings, GRAVITY_EARTH]
  · norm_num [simulateLaunch, simLoop, rk4Step, getDerivatives, borderParams,
      padPlanet, gateSettings, GRAVITY_EARTH, Nat.ceil_one]

/-- C3 (amended): whenever the computed start TWR is *strictly* below
`1.0001`, `simulateLaunch` returns `maxHeight = 0` and `maxVelocity = 0`
while the tank/fuel/dry/total masses, burn time, start TWR and delta-v
fields still carry their fully computed values; and for every input
whatsoever the returned `maxHeight` is non-negative. -/
theorem c3_liftoff_gate :
    ∀ (tank : ℝ) (params : RocketParams) (planet : Planet)
      (settings : SimulationSettings) (li : ℝ),
      ((simulateLaunch tank params planet settings li).twrStart < 1.0001 →
        (simulateLaunch tank params planet settings li).maxHeight = 0
        ∧ (simulateLaunch tank params planet settings li).maxVelocity = 0
        ∧ (simulateLaunch tank params planet settings li).tankMass = tank
        ∧ (simulateLaunch tank params planet settings li).fuelMass
            = tank * (1 - params.tankDryWetRatio)
        ∧ (simulateLaunch tank params planet settings li).dryMass
            = params.engineCount * params.engine.mass + params.payloadMass
              + tank * params.tankDryWetRatio
        ∧ (simulateLaunch tank params planet settings li).totalMassStart
            = (params.engineCount * params.engine.mass + params.payloadMass
              + tank * params.tankDryWetRatio) + tank * (1 - params.tankDryWetRatio)
        ∧ (simulateLaunch tank params planet settings li).burnTime
            = (if 0 < params.engineCount * params.engine.thrust * 1000 *
                  GRAVITY_EARTH / (params.engine.isp * GRAVITY_EARTH) then
                tank * (1 - params.tankDryWetRatio) * 1000 /
                  (params.engineCount * params.engine.thrust * 1000 *
                    GRAVITY_EARTH / (params.engine.isp * GRAVITY_EARTH))
              else 0)
        ∧ (simulateLaunch tank params planet settings li).twrStart
            = (if 0 < ((params.engineCount * params.engine.mass + params.payloadMass
                  + tank * params.tankDryWetRatio)
                  + tank * (1 - params.tankDryWetRatio)) * 1000 *
                  planet.gravitySurface then
                params.engineCount * params.engine.thrust * 1000 * GRAVITY_EARTH /
                  (((params.engineCount * params.engine.mass + params.payloadMass
                    + tank * params.tankDryWetRatio)
                    + tank * (1 - params.tankDryWetRatio)) * 1000 *
                    planet.gravitySurface)
              else 0)
        ∧ (simulateLaunch tank params planet settings li).deltaV
            = params.engine.isp * GRAVITY_EARTH *
              Real.log (((params.engineCount * params.engine.mass
                  + params.payloadMass + tank * params.tankDryWetRatio)
                  + tank * (1 - params.tankDryWetRatio))
                / (params.engineCount * params.engine.mass + params.payloadMass
                  + tank * params.tankDryWetRatio)))
      ∧ 0 ≤ (simulateLaunch tank params planet settings li).maxHeight := by
  intro tank params planet settings li
  constructor
  · intro h
    simp only [simulateLaunch] at h ⊢
    split_ifs at h ⊢ <;>
      first
        | exact ⟨rfl, rfl, rfl, rfl, rfl, rfl, rfl, rfl, rfl⟩
        | exact absurd h (by assumption)
  · simp only [simulateLaunch]
    split_ifs <;> first | exact le_refl 0 | exact le_max_left 0 _

/-- C3 (witness): the zero-thrust rocket has start TWR `0 < 1.0001`, so the
gate fires and both motion fields are zero. -/
theorem c3_liftoff_gate_witness :
    (simulateLaunch 10 zeroThrustParams padPlanet gateSettings 0).twrStart < 1.0001
    ∧ (simulateLaunch 10 zeroThrustParams padPlanet gateSettings 0).maxHeight = 0
    ∧ (simulateLaunch 10 zeroThrustParams padPlanet gateSettings 0).maxVelocity = 0 := by
  have h : (simulateLaunch 10 zeroThrustParams padPlanet gateSettings 0).twrStart
      < 1.0001 := by
    norm_num [simulateLaunch, zeroThrustParams, padPlanet, gateSettings, GRAVITY_EARTH]
  have hc := (c3_liftoff_gate 10 zeroThrustParams padPlanet gateSettings 0).1 h
  exact ⟨h, hc.1, hc.2.1⟩
